import Mathlib

set_option linter.unusedVariables false
set_option linter.unusedSectionVars false

/-!
# Facility Discovery & Ranking Engine — verification development

Shallow embedding of the antivenom facility search pipeline:

* `VenomX.Db` models the repository layer (`src/app/utils/db.py`): the
  Supabase-backed queries are modelled as pure functions over an in-memory
  snapshot `DB` of the five tables they read, with the current date passed
  as an integer day number `today`.
* `VenomX.Router` models the two endpoints of
  `src/app/routers/antivenom.py` (`find_antivenom` on `/antivenom/finder`
  and `get_facilities_with_antivenom` on `/antivenom/facilities`).
  The routing client is passed in as a function `resolve`; the outcome of
  the `get_all_facilities` repository call made on the degraded fallback
  path is passed as an `Except Unit Unit` so that its failure mode can be
  analysed.  An endpoint returns `none` exactly where the source surfaces
  an HTTP error (validation failures, lookup-not-found, and unhandled
  exceptions) instead of a response body.
* `VenomX.Osrm` models `src/app/utils/osrm.py` over the reals: the
  outcome of the primary routing-provider request is a `PrimaryOutcome`
  (the transport is external), and `get_route_with_fallback` is the
  source's fallback logic around it, with the haversine estimate written
  out over `ℝ`.

Numeric fields that the source holds as Python floats (coordinates and
distances) are embedded generically over a linearly ordered type `α` with
a zero (instantiated at `ℚ` for executable witnesses and at `ℝ` where the
haversine formula is involved).  Python truthiness tests on optional
numbers/strings (`if not x:`) are modelled by the `truthy_*` functions:
`None`, `0` and `""` are falsy.
-/

namespace VenomX

/-! ## Table rows (the columns selected by `db.py`) -/

/-- A row of the `snakes` table (the columns the queries read). -/
structure SnakeRow where
  snake_id : Nat
  scientific_name : String
  common_name : Option String
  deriving DecidableEq

/-- A row of the `antivenom_types` table. -/
structure AntivenomTypeRow where
  type_id : Nat
  type_name : String
  deriving DecidableEq

/-- A row of the `antivenoms` table. -/
structure AntivenomRow where
  antivenom_id : Nat
  product_name : String
  manufacturer : Option String
  type_id : Nat
  deriving DecidableEq

/-- A row of the `antivenom_snake_targets` table. -/
structure TargetRow where
  antivenom_id : Nat
  snake_id : Nat
  deriving DecidableEq

/-- A row of the `facility_antivenom_stock` table.  The expiration date is
a day number compared against `today`. -/
structure StockRecord where
  stock_id : Nat
  facility_id : Nat
  antivenom_id : Nat
  quantity : Int
  expiration_date : Option Int
  batch_no : Option String
  deriving DecidableEq

/-- A row of the `facilities` table (the columns the queries select).
Coordinates are nullable floats, embedded as `Option α`. -/
structure FacilityRow (α : Type) where
  facility_id : Nat
  facility_name : String
  facility_type : String
  region : String
  province : String
  city_municipality : String
  address : Option String
  latitude : Option α
  longitude : Option α
  contact_number : Option String
  facility_email : Option String
  image_url : Option String
  deriving DecidableEq

/-- The database snapshot a single request reads (the tables touched by
the queries in `db.py`); list order models table/result order. -/
structure DB (α : Type) where
  snakes : List SnakeRow
  antivenom_types : List AntivenomTypeRow
  antivenoms : List AntivenomRow
  antivenom_snake_targets : List TargetRow
  facility_antivenom_stock : List StockRecord
  facilities : List (FacilityRow α)
  deriving DecidableEq

/-- One dict in the list returned by the repository search functions:
facility columns joined with one antivenom product and one stock record.
`antivenom_type` is filled only by the by-type query and `target_snakes`
only by the by-name query, mirroring the dict keys each query adds. -/
structure ResultRow (α : Type) where
  facility_id : Nat
  facility_name : String
  facility_type : String
  region : String
  province : String
  city_municipality : String
  address : Option String
  latitude : Option α
  longitude : Option α
  contact_number : Option String
  facility_email : Option String
  image_url : Option String
  antivenom_id : Nat
  antivenom_name : String
  manufacturer : Option String
  quantity : Int
  expiration_date : Option Int
  batch_no : Option String
  antivenom_type : Option String := none
  target_snakes : Option (List String) := none
  deriving DecidableEq

namespace Db

variable {α : Type}

/-- The `facilities_lookup` dict built by `{f['facility_id']: f for f in ...}`:
a later row with the same id overwrites an earlier one.  The source
restricts the fetch to the ids occurring in the stock list, and only those
ids are ever looked up, so the restriction is observationally a no-op. -/
def lookup_facility (db : DB α) (i : Nat) : Option (FacilityRow α) :=
  db.facilities.reverse.find? (fun f => f.facility_id == i)

/-- The `antivenoms_lookup` dict, same construction as `lookup_facility`. -/
def lookup_antivenom (db : DB α) (i : Nat) : Option AntivenomRow :=
  db.antivenoms.reverse.find? (fun a => a.antivenom_id == i)

/-- The inline expiration check of `db.py` (lines 214-220 and 399-405):
a stock record with a date on or before today is skipped; a record with
no expiration date is never skipped by this check. -/
def stock_expired (today : Int) (exp : Option Int) : Bool :=
  match exp with
  | none => false
  | some d => decide (d ≤ today)

/-- The dict appended to `facilities` for one surviving stock record. -/
def mk_result_row (f : FacilityRow α) (a : AntivenomRow) (s : StockRecord) : ResultRow α :=
  { facility_id := f.facility_id
    facility_name := f.facility_name
    facility_type := f.facility_type
    region := f.region
    province := f.province
    city_municipality := f.city_municipality
    address := f.address
    latitude := f.latitude
    longitude := f.longitude
    contact_number := f.contact_number
    facility_email := f.facility_email
    image_url := f.image_url
    antivenom_id := a.antivenom_id
    antivenom_name := a.product_name
    manufacturer := a.manufacturer
    quantity := s.quantity
    expiration_date := s.expiration_date
    batch_no := s.batch_no }

/-- The shared "process and format results" loop of the by-snake and
by-type queries: for each stock row, look up its facility and antivenom
(skipping the row when either lookup misses), skip expired stock, and
emit the joined dict.  `ty` is `some t` for the by-type query, which adds
the requested type name to each dict. -/
def process_stock_rows (db : DB α) (today : Int) (ty : Option String)
    (stocks : List StockRecord) : List (ResultRow α) :=
  stocks.filterMap (fun s =>
    match lookup_facility db s.facility_id, lookup_antivenom db s.antivenom_id with
    | some f, some a =>
        if stock_expired today s.expiration_date then none
        else some { mk_result_row f a s with antivenom_type := ty }
    | _, _ => none)

/-- `DatabaseManager.get_facilities_with_antivenom` (by snake id).
NOTE the quantity filter is `gte 0` in the source ("temporarily to show
all facilities (including 0 stock) for testing"), unlike the `gt 0` used
by the by-type and by-name queries and by this function's own asyncpg
fallback SQL. -/
def get_facilities_with_antivenom (db : DB α) (today : Int) (snakeId : Nat) :
    List (ResultRow α) :=
  let antivenom_ids :=
    (db.antivenom_snake_targets.filter (fun t => t.snake_id == snakeId)).map (·.antivenom_id)
  if antivenom_ids.isEmpty then []
  else
    let facilities_stock := db.facility_antivenom_stock.filter
      (fun s => antivenom_ids.contains s.antivenom_id && decide (0 ≤ s.quantity))
    if facilities_stock.isEmpty then []
    else process_stock_rows db today none facilities_stock

/-- `DatabaseManager.get_facilities_by_antivenom_type`. -/
def get_facilities_by_antivenom_type (db : DB α) (today : Int) (ty : String) :
    List (ResultRow α) :=
  match db.antivenom_types.find? (fun t => t.type_name == ty) with
  | none => []
  | some trow =>
      let avs := db.antivenoms.filter (fun a => a.type_id == trow.type_id)
      if avs.isEmpty then []
      else
        let ids := avs.map (·.antivenom_id)
        let facilities_stock := db.facility_antivenom_stock.filter
          (fun s => ids.contains s.antivenom_id && decide (0 < s.quantity))
        if facilities_stock.isEmpty then []
        else process_stock_rows db today (some ty) facilities_stock

/-- `DatabaseManager.get_all_facilities`. -/
def get_all_facilities (db : DB α) : List (FacilityRow α) :=
  db.facilities

/-- `DatabaseManager.get_snake_by_common_name`: a case-insensitive exact
match (`ilike` with no wildcard in the argument), first matching row. -/
def get_snake_by_common_name (db : DB α) (name : String) : Option SnakeRow :=
  db.snakes.find? (fun s => s.common_name.any (fun c => c.toLower == name.toLower))

/-- `LOWER(product_name) ILIKE LOWER('%name%')`: case-insensitive
substring match (wildcard characters inside `name` are not modelled). -/
def substring_ci (needle hay : String) : Bool :=
  needle.toLower == "" || (hay.toLower.splitOn needle.toLower).length ≥ 2

/-- The `ARRAY_AGG(DISTINCT s.scientific_name)` join column: scientific
names of the snakes this antivenom targets (inner join, so targets whose
snake row is missing contribute nothing). -/
def target_snake_names (db : DB α) (antivenomId : Nat) : List String :=
  (db.antivenom_snake_targets.filter (fun t => t.antivenom_id == antivenomId)).filterMap
    (fun t => (db.snakes.find? (fun sn => sn.snake_id == t.snake_id)).map (·.scientific_name))

/-- `DatabaseManager.get_facilities_with_antivenom_by_name`, modelled from
its SQL text: stock joined to its facility, antivenom and at least one
target snake, filtered to a case-insensitive product-name substring match,
positive quantity and unexpired stock; grouping collapses duplicate rows
and the result is ordered by facility name.  (At run time this query goes
through the asyncpg pool rather than the Supabase client; the SQL is the
function's meaning.) -/
def get_facilities_with_antivenom_by_name (db : DB α) (today : Int) (name : String)
    [DecidableEq α] : List (ResultRow α) :=
  let rows := db.facility_antivenom_stock.filterMap (fun s =>
    match lookup_facility db s.facility_id, lookup_antivenom db s.antivenom_id with
    | some f, some a =>
        let snakes := target_snake_names db s.antivenom_id
        if substring_ci name a.product_name && decide (0 < s.quantity) &&
            !stock_expired today s.expiration_date && !snakes.isEmpty then
          some { mk_result_row f a s with target_snakes := some snakes.dedup }
        else none
    | _, _ => none)
  List.insertionSort (fun x y => x.facility_name ≤ y.facility_name) rows.dedup

end Db

/-! ## Python truthiness on optional values -/

/-- Truthiness of an optional number: `None` and `0` are falsy. -/
def truthy_num {α : Type} [Zero α] [DecidableEq α] (x : Option α) : Bool :=
  match x with
  | none => false
  | some v => decide (v ≠ 0)

/-- Truthiness of an optional int: `None` and `0` are falsy. -/
def truthy_nat (x : Option Nat) : Bool :=
  match x with
  | none => false
  | some n => decide (n ≠ 0)

/-- Truthiness of an optional string: `None` and `""` are falsy. -/
def truthy_str (x : Option String) : Bool :=
  match x with
  | none => false
  | some s => decide (s ≠ "")

namespace Router

variable {α : Type} [LinearOrder α] [Zero α]

/-- The route dict produced by the OSRM client (the keys the router and
the `RouteInfo` response model read; `formatted_duration` and the echoed
endpoint coordinates are presentational and omitted). -/
structure RouteResult (α : Type) where
  success : Bool
  distance_meters : Option α := none
  distance_km : Option α := none
  duration_seconds : Option α := none
  duration_minutes : Option α := none
  duration_hours : Option α := none
  fallback : Bool := false
  note : Option String := none
  error : Option String := none
  deriving DecidableEq

/-- `AntivenomFinderRequest` (validated: coordinates are in range and
`max_distance_km`, when not null, is positive). -/
structure AntivenomFinderRequest (α : Type) where
  snake_common_name : Option String
  snake_id : Option Nat
  antivenom_type : Option String
  user_latitude : α
  user_longitude : α
  max_distance_km : Option α
  deriving DecidableEq

/-- `FacilityListRequest`. -/
structure FacilityListRequest (α : Type) where
  antivenom_name : Option String
  snake_id : Option Nat
  user_latitude : α
  user_longitude : α
  max_distance_km : Option α
  deriving DecidableEq

/-- `AntivenomInfo` (schemas.py). -/
structure AntivenomInfo where
  antivenom_id : Nat
  antivenom_name : String
  manufacturer : Option String
  quantity : Int
  expiration_date : Option Int
  batch_no : Option String
  target_snakes : Option (List String) := none
  deriving DecidableEq

/-- `FacilityInfo` (schemas.py).  `route_info` is `None` when the route
dict reports failure.  (The router also passes an `image_url` keyword,
which the schema does not declare and pydantic drops.) -/
structure FacilityInfo (α : Type) where
  facility_id : Nat
  facility_name : String
  facility_type : String
  region : String
  province : String
  city_municipality : String
  address : Option String
  latitude : Option α
  longitude : Option α
  contact_number : Option String
  facility_email : Option String
  antivenoms : List AntivenomInfo
  route_info : Option (RouteResult α)
  deriving DecidableEq

/-- One element of the `facilities_with_distance` working list:
`{"facility": ..., "distance_km": route_info.get("distance_km", inf)}`.
The `distance_km` key is present in every branch of the route dict, so
the `inf` default is dead and the stored value is the dict's optional
distance. -/
structure FacilityWithDistance (α : Type) where
  facility : FacilityInfo α
  distance_km : Option α
  deriving DecidableEq

/-- The response envelope common to `AntivenomFinderResponse` and
`FacilityListResponse` (identical observable fields; the echoed
`search_criteria`, `user_location` and wall-clock `processing_time` are
omitted).  `search_radius_km` is a required float in the schema, so a
response can only be built when the request's `max_distance_km` is not
null. -/
structure FinderResponse (α : Type) where
  success : Bool
  message : String
  facilities_found : Nat
  facilities : List (FacilityInfo α)
  search_radius_km : α
  deriving DecidableEq

variable [DecidableEq α]

/-- The coordinate-presence guard used by all three facility loops:
`if not facility.get("latitude") or not facility.get("longitude"): continue`.
A null *or zero* coordinate fails the check. -/
def has_coordinates (lat lon : Option α) : Bool :=
  truthy_num lat && truthy_num lon

/-- The max-distance filter:
`if request.max_distance_km and route_info.get("distance_km") and
route_info["distance_km"] > request.max_distance_km: continue`. -/
def beyond_max_distance (maxDistance : Option α) (d : Option α) : Bool :=
  truthy_num maxDistance && truthy_num d && decide (maxDistance.getD 0 < d.getD 0)

/-- The `AntivenomInfo` dict built per stock row in `find_antivenom`
(no `target_snakes` key). -/
def mk_antivenom_info (r : ResultRow α) : AntivenomInfo :=
  { antivenom_id := r.antivenom_id
    antivenom_name := r.antivenom_name
    manufacturer := r.manufacturer
    quantity := r.quantity
    expiration_date := r.expiration_date
    batch_no := r.batch_no }

/-- The `AntivenomInfo` dict built per stock row in the facilities
endpoint: `target_snakes=facility_data.get("target_snakes", [])`. -/
def mk_antivenom_info_grouped (r : ResultRow α) : AntivenomInfo :=
  { mk_antivenom_info r with target_snakes := some (r.target_snakes.getD []) }

/-- The `FacilityInfo` built from one result row. -/
def mk_facility_info (r : ResultRow α) (avs : List AntivenomInfo)
    (route : RouteResult α) : FacilityInfo α :=
  { facility_id := r.facility_id
    facility_name := r.facility_name
    facility_type := r.facility_type
    region := r.region
    province := r.province
    city_municipality := r.city_municipality
    address := r.address
    latitude := r.latitude
    longitude := r.longitude
    contact_number := r.contact_number
    facility_email := r.facility_email
    antivenoms := avs
    route_info := if route.success then some route else none }

/-- The `FacilityInfo` built on the fallback path from a bare facility
row (`antivenoms=[]`). -/
def mk_fallback_facility_info (f : FacilityRow α) (route : RouteResult α) :
    FacilityInfo α :=
  { facility_id := f.facility_id
    facility_name := f.facility_name
    facility_type := f.facility_type
    region := f.region
    province := f.province
    city_municipality := f.city_municipality
    address := f.address
    latitude := f.latitude
    longitude := f.longitude
    contact_number := f.contact_number
    facility_email := f.facility_email
    antivenoms := []
    route_info := if route.success then some route else none }

/-- The per-record loop of `find_antivenom` (lines 280-336): each stock
row that has coordinates gets its own route resolution and its own
`FacilityInfo` carrying a singleton antivenom list, and is dropped again
when the resolved distance exceeds the requested maximum. -/
def process_facilities (resolve : α → α → α → α → RouteResult α)
    (userLat userLon : α) (maxDistance : Option α) (rows : List (ResultRow α)) :
    List (FacilityWithDistance α) :=
  rows.filterMap (fun r =>
    if !has_coordinates r.latitude r.longitude then none
    else
      let route := resolve userLat userLon (r.latitude.getD 0) (r.longitude.getD 0)
      if beyond_max_distance maxDistance route.distance_km then none
      else some { facility := mk_facility_info r [mk_antivenom_info r] route
                  distance_km := route.distance_km })

/-- The fallback-path loop of `find_antivenom` (lines 192-228): all
facilities with coordinates, no stock attached, and *no* max-distance
filter. -/
def process_fallback_facilities (resolve : α → α → α → α → RouteResult α)
    (userLat userLon : α) (facs : List (FacilityRow α)) :
    List (FacilityWithDistance α) :=
  facs.filterMap (fun f =>
    if !has_coordinates f.latitude f.longitude then none
    else
      let route := resolve userLat userLon (f.latitude.getD 0) (f.longitude.getD 0)
      some { facility := mk_fallback_facility_info f route
             distance_km := route.distance_km })

/-- One entry of the `facility_groups` dict: facility id, the first-seen
row for that facility, and the accumulated antivenom list. -/
def FacilityGroup (α : Type) : Type := Nat × ResultRow α × List AntivenomInfo

/-- Processing one row of the grouping loop of the facilities endpoint
(lines 470-492): a new facility id is appended to the dict (Python dicts
preserve insertion order), an existing one only accumulates the row's
antivenom info. -/
def insert_group (gs : List (FacilityGroup α)) (r : ResultRow α) :
    List (FacilityGroup α) :=
  match gs with
  | [] => [(r.facility_id, r, [mk_antivenom_info_grouped r])]
  | g :: rest =>
      if g.1 = r.facility_id then (g.1, g.2.1, g.2.2 ++ [mk_antivenom_info_grouped r]) :: rest
      else g :: insert_group rest r

/-- The `facility_groups` dict, in insertion order. -/
def group_by_facility (rows : List (ResultRow α)) : List (FacilityGroup α) :=
  rows.foldl insert_group []

/-- The per-group loop of the facilities endpoint (lines 498-546): one
route resolution per facility group, facility data taken from the
first-seen row, the aggregated antivenom list attached. -/
def process_facility_groups (resolve : α → α → α → α → RouteResult α)
    (userLat userLon : α) (maxDistance : Option α) (gs : List (FacilityGroup α)) :
    List (FacilityWithDistance α) :=
  gs.filterMap (fun g =>
    let r := g.2.1
    if !has_coordinates r.latitude r.longitude then none
    else
      let route := resolve userLat userLon (r.latitude.getD 0) (r.longitude.getD 0)
      if beyond_max_distance maxDistance route.distance_km then none
      else some { facility := mk_facility_info r g.2.2 route
                  distance_km := route.distance_km })

/-- The sort key comparison of `facilities_with_distance.sort(key=...)`. -/
def by_distance (x y : FacilityWithDistance α) : Prop :=
  x.distance_km.getD 0 ≤ y.distance_km.getD 0

instance by_distance_decidable : DecidableRel (by_distance (α := α)) :=
  fun x y => inferInstanceAs (Decidable (x.distance_km.getD 0 ≤ y.distance_km.getD 0))

/-- `facilities_with_distance.sort(key=lambda x: x["distance_km"])`:
Python's sort is stable, modelled by insertion sort.  Comparing a missing
distance against anything raises `TypeError` in the source; that happens
exactly when the list has two or more elements and some stored distance
is `None`, and is modelled by `none`. -/
def sort_by_distance (l : List (FacilityWithDistance α)) :
    Option (List (FacilityWithDistance α)) :=
  if l.length ≤ 1 || l.all (fun e => e.distance_km.isSome) then
    some (List.insertionSort by_distance l)
  else none

/-- The `(nearest: {d:.1f}km)` suffix appended to a non-empty result
message; `fmt` models the Python `.1f` float formatting. -/
def nearest_suffix (sorted : List (FacilityWithDistance α)) (fmt : α → String) : String :=
  match sorted.head?.bind (fun e => e.distance_km) with
  | some d => " (nearest: " ++ fmt d ++ "km)"
  | none => ""

/-- The empty response built both by the fallback-path exception handler
of `find_antivenom` (lines 253-271) and reached again when sorting the
fallback list raises. -/
def snake_search_empty_response (radius : α) : FinderResponse α :=
  { success := true
    message := "No facilities found with antivenom for this snake species"
    facilities_found := 0
    facilities := []
    search_radius_km := radius }

/-- The primary-search phase of `find_antivenom` (lines 80-136): CASE 1
resolves the snake identity (by id, or by common name when no truthy id
is given — an unknown name is a terminal 404, `none`); CASE 2 validates
the antivenom type (anything but the two literals is a 400, `none`) and
queries by type.  When no branch runs, `facilities_data` stays `[]`
(unreachable behind the endpoint's validation guard). -/
def finder_primary_rows (db : DB α) (today : Int) (req : AntivenomFinderRequest α) :
    Option (List (ResultRow α)) :=
  if truthy_nat req.snake_id || truthy_str req.snake_common_name then
    if truthy_str req.snake_common_name && !truthy_nat req.snake_id then
      match Db.get_snake_by_common_name db (req.snake_common_name.getD "") with
      | none => none
      | some s => some (Db.get_facilities_with_antivenom db today s.snake_id)
    else some (Db.get_facilities_with_antivenom db today (req.snake_id.getD 0))
  else if truthy_str req.antivenom_type then
    if req.antivenom_type = some "polyvalent" ∨ req.antivenom_type = some "monovalent" then
      some (Db.get_facilities_by_antivenom_type db today (req.antivenom_type.getD ""))
    else none
  else some []

/-- The response phase of `find_antivenom` (lines 138-373), given the
primary search's row list: the zero-candidate branches (type-search
message, degraded nearest-facilities fallback, terminal empty states)
and the per-record distance pipeline. -/
def finder_build_response (db : DB α) (today : Int)
    (resolve : α → α → α → α → RouteResult α) (fmt : α → String)
    (allFacilitiesOutcome : Except Unit Unit)
    (req : AntivenomFinderRequest α) (radius : α) (rows : List (ResultRow α)) :
    Option (FinderResponse α) :=
  if rows.isEmpty then
          if truthy_str req.antivenom_type then
            some { success := true
                   message := "No facilities found with " ++ req.antivenom_type.getD "" ++
                     " antivenom"
                   facilities_found := 0
                   facilities := []
                   search_radius_km := radius }
          else
            match allFacilitiesOutcome with
            | .error _ => some (snake_search_empty_response radius)
            | .ok _ =>
              let all_facilities := Db.get_all_facilities db
              if all_facilities.isEmpty then
                some { success := true
                       message := "No facilities found in the system"
                       facilities_found := 0
                       facilities := []
                       search_radius_km := radius }
              else
                let fallback_facilities := process_fallback_facilities resolve
                  req.user_latitude req.user_longitude all_facilities
                match sort_by_distance fallback_facilities with
                | none => some (snake_search_empty_response radius)
                | some sorted =>
                  let nearest_facilities := (sorted.take 5).map (·.facility)
                  some { success := true
                         message := "No facilities with specific antivenom found. Showing " ++
                           toString nearest_facilities.length ++
                           " nearest facilities. Please contact them for alternative treatment options."
                         facilities_found := nearest_facilities.length
                         facilities := nearest_facilities
                         search_radius_km := radius }
        else
          let entries := process_facilities resolve req.user_latitude req.user_longitude
            req.max_distance_km rows
          match sort_by_distance entries with
          | none => none
          | some sorted =>
            let sorted_facilities := sorted.map (·.facility)
            some { success := true
                   message :=
                     if sorted_facilities.isEmpty then
                       "No facilities found within specified distance"
                     else
                       "Found " ++ toString sorted_facilities.length ++
                         " facilities with antivenom" ++ nearest_suffix sorted fmt
                   facilities_found := sorted_facilities.length
                   facilities := sorted_facilities
                   search_radius_km := radius }

/-- The `/antivenom/finder` endpoint `find_antivenom`.  `resolve` is the
OSRM client call, `fmt` the `.1f` float formatting, and
`allFacilitiesOutcome` whether the `get_all_facilities` repository call
made on the degraded fallback path raises.  `none` models an HTTP error
response (400/404/500) instead of a response body; in particular a
request whose `max_distance_km` is null fails response-model validation
(`search_radius_km` is a required float) on every path. -/
def find_antivenom (db : DB α) (today : Int)
    (resolve : α → α → α → α → RouteResult α) (fmt : α → String)
    (allFacilitiesOutcome : Except Unit Unit)
    (req : AntivenomFinderRequest α) : Option (FinderResponse α) :=
  if !truthy_str req.snake_common_name && !truthy_nat req.snake_id &&
      !truthy_str req.antivenom_type then none
  else
    match req.max_distance_km with
    | none => none
    | some radius =>
      match finder_primary_rows db today req with
      | none => none
      | some rows =>
          finder_build_response db today resolve fmt allFacilitiesOutcome req radius rows

/-- The search phase of the `/antivenom/facilities` endpoint (lines
424-447): by antivenom name first, else by snake id. -/
def list_primary_rows (db : DB α) (today : Int) (req : FacilityListRequest α) :
    List (ResultRow α) :=
  if truthy_str req.antivenom_name then
    Db.get_facilities_with_antivenom_by_name db today (req.antivenom_name.getD "")
  else if truthy_nat req.snake_id then
    Db.get_facilities_with_antivenom db today (req.snake_id.getD 0)
  else []

/-- The response phase of the facilities endpoint (lines 449-582), given
the search's row list: the empty-result branch, and otherwise the
grouped distance pipeline. -/
def list_build_response (db : DB α) (today : Int)
    (resolve : α → α → α → α → RouteResult α) (fmt : α → String)
    (req : FacilityListRequest α) (radius : α) (rows : List (ResultRow α)) :
    Option (FinderResponse α) :=
  if rows.isEmpty then
        some { success := true
               message := "No facilities found matching the criteria"
               facilities_found := 0
               facilities := []
               search_radius_km := radius }
      else
        let entries := process_facility_groups resolve req.user_latitude req.user_longitude
          req.max_distance_km (group_by_facility rows)
        match sort_by_distance entries with
        | none => none
        | some sorted =>
          let sorted_facilities := sorted.map (·.facility)
          some { success := true
                 message :=
                   if sorted_facilities.isEmpty then
                     "No facilities found within specified distance"
                   else
                     "Found " ++ toString sorted_facilities.length ++ " facilities" ++
                       nearest_suffix sorted fmt
                 facilities_found := sorted_facilities.length
                 facilities := sorted_facilities
                 search_radius_km := radius }

/-- The `/antivenom/facilities` endpoint `get_facilities_with_antivenom`:
unlike the finder it groups rows by facility id and has no degraded
fallback path. -/
def get_facilities_with_antivenom (db : DB α) (today : Int)
    (resolve : α → α → α → α → RouteResult α) (fmt : α → String)
    (req : FacilityListRequest α) : Option (FinderResponse α) :=
  if !truthy_str req.antivenom_name && !truthy_nat req.snake_id then none
  else
    match req.max_distance_km with
    | none => none
    | some radius =>
        list_build_response db today resolve fmt req radius (list_primary_rows db today req)

/-- Number of route resolutions the per-record loop of `find_antivenom`
performs: one per stock row passing the coordinate check (the
max-distance filter runs after the call). -/
def finder_resolver_calls (rows : List (ResultRow α)) : Nat :=
  (rows.filter (fun r => has_coordinates r.latitude r.longitude)).length

/-- Number of route resolutions the grouped loop of the facilities
endpoint performs: one per facility group passing the coordinate check. -/
def grouped_resolver_calls (rows : List (ResultRow α)) : Nat :=
  ((group_by_facility rows).filter
    (fun g => has_coordinates g.2.1.latitude g.2.1.longitude)).length

/-- The resolved distance a response facility reports. -/
def resolved_distance (fi : FacilityInfo α) : Option α :=
  fi.route_info.bind (fun r => r.distance_km)

/-- The resolver contract the OSRM client satisfies (`Osrm` section):
every call reports success and carries a distance. -/
def ResolverTotal (resolve : α → α → α → α → RouteResult α) : Prop :=
  ∀ a b c d, (resolve a b c d).success = true ∧ (resolve a b c d).distance_km.isSome = true

end Router

namespace Osrm

/-- Outcome of the primary OSRM HTTP request in `get_route_info`: a
parsed route, or one of the failure modes the source catches (timeout,
non-2xx status, and any other error including `code != "Ok"` and "no
routes"). -/
inductive PrimaryOutcome where
  | ok (distance_meters duration_seconds : ℝ)
  | timeout
  | httpError (statusCode : Nat)
  | requestError (message : String)

/-- All outcomes other than a parsed route are failures. -/
def PrimaryOutcome.isFailure : PrimaryOutcome → Bool
  | .ok _ _ => false
  | _ => true

/-- Python `round(x, 2)` over the real model.  (Python rounds ties to
even; `round` rounds ties up — the two differ only at exact multiples of
0.005, immaterial to the statements below.) -/
noncomputable def round2 (x : ℝ) : ℝ := ((round (x * 100) : ℤ) : ℝ) / 100

/-- Python `round(x, 1)`. -/
noncomputable def round1 (x : ℝ) : ℝ := ((round (x * 10) : ℤ) : ℝ) / 10

/-- `math.radians`. -/
noncomputable def radians (d : ℝ) : ℝ := d * Real.pi / 180

/-- `OSRMClient.calculate_straight_line_distance`: haversine formula
over a spherical earth of radius 6371 km. -/
noncomputable def calculate_straight_line_distance (lat1 lon1 lat2 lon2 : ℝ) : ℝ :=
  let rlat1 := radians lat1
  let rlon1 := radians lon1
  let rlat2 := radians lat2
  let rlon2 := radians lon2
  let dlat := rlat2 - rlat1
  let dlon := rlon2 - rlon1
  let a := Real.sin (dlat / 2) ^ 2 +
    Real.cos rlat1 * Real.cos rlat2 * Real.sin (dlon / 2) ^ 2
  let c := 2 * Real.arcsin (Real.sqrt a)
  c * 6371

/-- `OSRMClient.get_route_info`: the route dict built from the primary
outcome; every failure mode produces the same failure dict, with only the
`error` text differing. -/
noncomputable def get_route_info (p : PrimaryOutcome) : Router.RouteResult ℝ :=
  match p with
  | .ok dm ds =>
      { success := true
        distance_meters := some dm
        distance_km := some (round2 (dm / 1000))
        duration_seconds := some ds
        duration_minutes := some (round1 (ds / 60))
        duration_hours := some (round2 (ds / 3600)) }
  | .timeout =>
      { success := false, error := some "Routing service timeout" }
  | .httpError code =>
      { success := false, error := some ("Routing service error: " ++ toString code) }
  | .requestError msg =>
      { success := false, error := some msg }

/-- `OSRMClient.get_route_with_fallback`: try the primary route, and on
any failure fall back to the haversine estimate with a 50 km/h duration
assumption.  The source guards the fallback arithmetic with a final
`except` for float-domain errors in the math library; over `ℝ` the
computation is total, so that branch is unreachable in this model. -/
noncomputable def get_route_with_fallback (p : PrimaryOutcome)
    (startLat startLon endLat endLon : ℝ) : Router.RouteResult ℝ :=
  let route_info := get_route_info p
  if route_info.success then route_info
  else
    let straight_distance :=
      calculate_straight_line_distance startLat startLon endLat endLon
    let estimated_duration_hours := straight_distance / 50
    let estimated_duration_seconds := estimated_duration_hours * 3600
    { success := true
      fallback := true
      distance_meters := some (straight_distance * 1000)
      distance_km := some (round2 straight_distance)
      duration_seconds := some estimated_duration_seconds
      duration_minutes := some (round1 (estimated_duration_seconds / 60))
      duration_hours := some (round2 estimated_duration_hours)
      note := some "Estimated based on straight-line distance (routing service unavailable)" }

end Osrm

/-! ## Helper lemmas and claim theorems -/

namespace Db

variable {α : Type}

/-- Membership characterisation of the shared per-stock-record loop. -/
theorem mem_process_stock_rows {db : DB α} {today : Int} {ty : Option String}
    {stocks : List StockRecord} {r : ResultRow α} :
    r ∈ process_stock_rows db today ty stocks ↔
      ∃ s ∈ stocks, ∃ f a, lookup_facility db s.facility_id = some f ∧
        lookup_antivenom db s.antivenom_id = some a ∧
        stock_expired today s.expiration_date = false ∧
        r = { mk_result_row f a s with antivenom_type := ty } := by
  constructor
  · intro h
    obtain ⟨s, hs, hf⟩ := List.mem_filterMap.mp h
    refine ⟨s, hs, ?_⟩
    split at hf
    · rename_i f a hlf hla
      split at hf
      · exact absurd hf (by simp)
      · rename_i hexp
        refine ⟨f, a, hlf, hla, eq_false_of_ne_true hexp, ?_⟩
        exact (Option.some.inj hf).symm
    · exact absurd hf (by simp)
  · rintro ⟨s, hs, f, a, hlf, hla, hexp, rfl⟩
    apply List.mem_filterMap.mpr
    refine ⟨s, hs, ?_⟩
    rw [hlf, hla]
    simp [hexp]

end Db

namespace Router

variable {α : Type} [LinearOrder α] [Zero α] [DecidableEq α]

instance : IsTotal (FacilityWithDistance α) by_distance :=
  ⟨fun a b => le_total _ _⟩

instance : IsTrans (FacilityWithDistance α) by_distance :=
  ⟨fun _ _ _ hab hbc => le_trans hab hbc⟩

theorem sort_by_distance_of_all_some {l : List (FacilityWithDistance α)}
    (h : ∀ e ∈ l, e.distance_km.isSome = true) :
    sort_by_distance l = some (List.insertionSort by_distance l) := by
  have hall : l.all (fun e => e.distance_km.isSome) = true := List.all_eq_true.mpr h
  simp [sort_by_distance, hall]

theorem sort_by_distance_some {l s : List (FacilityWithDistance α)}
    (h : sort_by_distance l = some s) :
    s = List.insertionSort by_distance l := by
  unfold sort_by_distance at h
  split at h
  · exact (Option.some.injEq _ _ ▸ h).symm
  · exact absurd h (by simp)

theorem sort_by_distance_perm {l s : List (FacilityWithDistance α)}
    (h : sort_by_distance l = some s) : s.Perm l := by
  rw [sort_by_distance_some h]
  exact List.perm_insertionSort _ _

theorem sort_by_distance_sorted {l s : List (FacilityWithDistance α)}
    (h : sort_by_distance l = some s) : s.Pairwise by_distance := by
  rw [sort_by_distance_some h]
  exact List.sorted_insertionSort _ _

theorem filter_class_orderedInsert (v : α) (a : FacilityWithDistance α)
    (l : List (FacilityWithDistance α)) :
    (List.orderedInsert by_distance a l).filter
        (fun e => decide (e.distance_km.getD 0 = v)) =
      if a.distance_km.getD 0 = v then
        a :: l.filter (fun e => decide (e.distance_km.getD 0 = v))
      else l.filter (fun e => decide (e.distance_km.getD 0 = v)) := by
  induction l with
  | nil => by_cases hv : a.distance_km.getD 0 = v <;>
      simp [List.orderedInsert, List.filter, hv]
  | cons b t ih =>
      by_cases hab : by_distance a b
      · rw [List.orderedInsert_of_le _ _ hab]
        by_cases hv : a.distance_km.getD 0 = v <;> simp [List.filter, hv]
      · have hba : b.distance_km.getD 0 < a.distance_km.getD 0 := by
          have := not_le.mp (by simpa [by_distance] using hab)
          exact this
        by_cases hv : a.distance_km.getD 0 = v
        · have hbv : ¬ b.distance_km.getD 0 = v := by
            intro hb
            exact absurd (hv ▸ hb ▸ hba) (lt_irrefl _)
          simp only [List.orderedInsert, if_neg hab, List.filter, hbv, decide_eq_true_eq,
            ih, if_pos hv]
          simp [hbv]
        · simp only [List.orderedInsert, if_neg hab, List.filter]
          by_cases hbv : b.distance_km.getD 0 = v <;>
            simp [hbv, ih, hv]

theorem filter_class_insertionSort (v : α) (l : List (FacilityWithDistance α)) :
    (List.insertionSort by_distance l).filter
        (fun e => decide (e.distance_km.getD 0 = v)) =
      l.filter (fun e => decide (e.distance_km.getD 0 = v)) := by
  induction l with
  | nil => rfl
  | cons a t ih =>
      show (List.orderedInsert by_distance a (List.insertionSort by_distance t)).filter _ = _
      rw [filter_class_orderedInsert]
      by_cases hv : a.distance_km.getD 0 = v <;> simp [List.filter, hv, ih]

/-- Stability of the distance sort: within a class of tied sort keys the
pre-sort order is preserved. -/
theorem sort_by_distance_stable {l s : List (FacilityWithDistance α)}
    (h : sort_by_distance l = some s) (v : α) :
    s.filter (fun e => decide (e.distance_km.getD 0 = v)) =
      l.filter (fun e => decide (e.distance_km.getD 0 = v)) := by
  rw [sort_by_distance_some h]
  exact filter_class_insertionSort v l

/-- Canonical decomposition of a member of the per-record loop's output. -/
theorem mem_process_facilities {resolve : α → α → α → α → RouteResult α}
    {userLat userLon : α} {maxDistance : Option α} {rows : List (ResultRow α)}
    {e : FacilityWithDistance α}
    (h : e ∈ process_facilities resolve userLat userLon maxDistance rows) :
    ∃ r ∈ rows, has_coordinates r.latitude r.longitude = true ∧
      beyond_max_distance maxDistance
        (resolve userLat userLon (r.latitude.getD 0) (r.longitude.getD 0)).distance_km = false ∧
      e = { facility := mk_facility_info r [mk_antivenom_info r]
              (resolve userLat userLon (r.latitude.getD 0) (r.longitude.getD 0))
            distance_km :=
              (resolve userLat userLon (r.latitude.getD 0) (r.longitude.getD 0)).distance_km } := by
  obtain ⟨r, hr, hf⟩ := List.mem_filterMap.mp h
  refine ⟨r, hr, ?_⟩
  by_cases hc : has_coordinates r.latitude r.longitude
  · simp only [hc, Bool.not_true, Bool.false_eq_true, if_false] at hf
    by_cases hd : beyond_max_distance maxDistance
        (resolve userLat userLon (r.latitude.getD 0) (r.longitude.getD 0)).distance_km
    · simp [hd] at hf
    · simp only [hd, Bool.false_eq_true, if_false, Option.some.injEq] at hf
      exact ⟨hc, by simpa using hd, hf.symm⟩
  · simp [hc] at hf

/-- Canonical decomposition of a member of the fallback loop's output. -/
theorem mem_process_fallback_facilities {resolve : α → α → α → α → RouteResult α}
    {userLat userLon : α} {facs : List (FacilityRow α)} {e : FacilityWithDistance α}
    (h : e ∈ process_fallback_facilities resolve userLat userLon facs) :
    ∃ f ∈ facs, has_coordinates f.latitude f.longitude = true ∧
      e = { facility := mk_fallback_facility_info f
              (resolve userLat userLon (f.latitude.getD 0) (f.longitude.getD 0))
            distance_km :=
              (resolve userLat userLon (f.latitude.getD 0) (f.longitude.getD 0)).distance_km } := by
  obtain ⟨f, hf, hmk⟩ := List.mem_filterMap.mp h
  refine ⟨f, hf, ?_⟩
  by_cases hc : has_coordinates f.latitude f.longitude
  · simp only [hc, Bool.not_true, Bool.false_eq_true, if_false, Option.some.injEq] at hmk
    exact ⟨hc, hmk.symm⟩
  · simp [hc] at hmk

/-- Canonical decomposition of a member of the grouped loop's output. -/
theorem mem_process_facility_groups {resolve : α → α → α → α → RouteResult α}
    {userLat userLon : α} {maxDistance : Option α} {gs : List (FacilityGroup α)}
    {e : FacilityWithDistance α}
    (h : e ∈ process_facility_groups resolve userLat userLon maxDistance gs) :
    ∃ g ∈ gs, has_coordinates g.2.1.latitude g.2.1.longitude = true ∧
      beyond_max_distance maxDistance
        (resolve userLat userLon (g.2.1.latitude.getD 0) (g.2.1.longitude.getD 0)).distance_km
          = false ∧
      e = { facility := mk_facility_info g.2.1 g.2.2
              (resolve userLat userLon (g.2.1.latitude.getD 0) (g.2.1.longitude.getD 0))
            distance_km :=
              (resolve userLat userLon (g.2.1.latitude.getD 0)
                (g.2.1.longitude.getD 0)).distance_km } := by
  obtain ⟨g, hg, hf⟩ := List.mem_filterMap.mp h
  refine ⟨g, hg, ?_⟩
  by_cases hc : has_coordinates g.2.1.latitude g.2.1.longitude
  · simp only [hc, Bool.not_true, Bool.false_eq_true, if_false] at hf
    by_cases hd : beyond_max_distance maxDistance
        (resolve userLat userLon (g.2.1.latitude.getD 0) (g.2.1.longitude.getD 0)).distance_km
    · simp [hd] at hf
    · simp only [hd, Bool.false_eq_true, if_false, Option.some.injEq] at hf
      exact ⟨hc, by simpa using hd, hf.symm⟩
  · simp [hc] at hf

/-- Under a total resolver, every entry built by any of the three loops
reports its sort key as its facility's resolved distance, and that
distance is present. -/
theorem entry_resolved_distance {resolve : α → α → α → α → RouteResult α}
    (hres : ResolverTotal resolve) {userLat userLon : α} {r : ResultRow α}
    (avs : List AntivenomInfo) :
    resolved_distance (mk_facility_info r avs
        (resolve userLat userLon (r.latitude.getD 0) (r.longitude.getD 0))) =
      (resolve userLat userLon (r.latitude.getD 0) (r.longitude.getD 0)).distance_km := by
  have hs := (hres userLat userLon (r.latitude.getD 0) (r.longitude.getD 0)).1
  simp [resolved_distance, mk_facility_info, hs]

theorem fallback_entry_resolved_distance {resolve : α → α → α → α → RouteResult α}
    (hres : ResolverTotal resolve) {userLat userLon : α} {f : FacilityRow α} :
    resolved_distance (mk_fallback_facility_info f
        (resolve userLat userLon (f.latitude.getD 0) (f.longitude.getD 0))) =
      (resolve userLat userLon (f.latitude.getD 0) (f.longitude.getD 0)).distance_km := by
  have hs := (hres userLat userLon (f.latitude.getD 0) (f.longitude.getD 0)).1
  simp [resolved_distance, mk_fallback_facility_info, hs]

/-! ### The grouping dict of the facilities endpoint -/

/-- Lookup in the `facility_groups` dict. -/
def find_group (gs : List (FacilityGroup α)) (k : Nat) : Option (FacilityGroup α) :=
  gs.find? (fun g => g.1 == k)

/-- First-seen deduplication of a key sequence: the key order of a
Python dict filled by iterating the sequence. -/
def dedup_first_seen (l : List Nat) : List Nat :=
  l.foldl (fun acc i => if acc.contains i then acc else acc ++ [i]) []

theorem insert_group_cons (g : FacilityGroup α) (rest : List (FacilityGroup α))
    (r : ResultRow α) :
    insert_group (g :: rest) r =
      if g.1 = r.facility_id then
        (g.1, g.2.1, g.2.2 ++ [mk_antivenom_info_grouped r]) :: rest
      else g :: insert_group rest r := rfl

theorem find_group_cons (g : FacilityGroup α) (t : List (FacilityGroup α)) (k : Nat) :
    find_group (g :: t) k = if g.1 == k then some g else find_group t k := by
  by_cases h : (g.1 == k) = true
  · rw [if_pos h]
    exact List.find?_cons_of_pos _ h
  · rw [if_neg h]
    exact List.find?_cons_of_neg _ h

theorem find_group_cons_mk (a : Nat) (b : ResultRow α) (c : List AntivenomInfo)
    (t : List (FacilityGroup α)) (k : Nat) :
    find_group ((a, b, c) :: t) k = if a == k then some (a, b, c) else find_group t k :=
  find_group_cons (a, b, c) t k

theorem insert_group_keys (gs : List (FacilityGroup α)) (r : ResultRow α) :
    (insert_group gs r).map (fun g => g.1) =
      if (gs.map (fun g => g.1)).contains r.facility_id then gs.map (fun g => g.1)
      else gs.map (fun g => g.1) ++ [r.facility_id] := by
  induction gs with
  | nil => simp [insert_group]
  | cons g rest ih =>
      rw [insert_group_cons]
      by_cases h : g.1 = r.facility_id
      · have hc : ((g :: rest).map (fun g => g.1)).contains r.facility_id = true := by
          simp [List.contains_cons, h]
        rw [hc, if_pos h, if_pos rfl]
        rfl
      · have hb : (r.facility_id == g.1) = false :=
          beq_eq_false_iff_ne.mpr (fun he => h he.symm)
        rw [if_neg h, List.map_cons, ih, List.map_cons, List.contains_cons, hb,
          Bool.false_or]
        by_cases h2 : (rest.map (fun g => g.1)).contains r.facility_id = true
        · rw [h2, if_pos rfl, if_pos rfl]
        · have h2f : (rest.map (fun g => g.1)).contains r.facility_id = false :=
            eq_false_of_ne_true h2
          rw [h2f, if_neg (by simp), if_neg (by simp)]
          simp

theorem find_group_insert (gs : List (FacilityGroup α)) (r : ResultRow α) (k : Nat) :
    find_group (insert_group gs r) k =
      if k = r.facility_id then
        match find_group gs k with
        | some g => some (g.1, g.2.1, g.2.2 ++ [mk_antivenom_info_grouped r])
        | none => some (r.facility_id, r, [mk_antivenom_info_grouped r])
      else find_group gs k := by
  induction gs with
  | nil =>
      by_cases hk : k = r.facility_id
      · have hb : (r.facility_id == k) = true := beq_iff_eq.mpr hk.symm
        show find_group [(r.facility_id, r, [mk_antivenom_info_grouped r])] k = _
        rw [find_group_cons, if_pos hb, if_pos hk]
        rfl
      · have hb : (r.facility_id == k) = false :=
          beq_eq_false_iff_ne.mpr (fun he => hk he.symm)
        show find_group [(r.facility_id, r, [mk_antivenom_info_grouped r])] k = _
        rw [find_group_cons_mk, hb, if_neg (by simp), if_neg hk]
  | cons g rest ih =>
      rw [insert_group_cons]
      by_cases hg : g.1 = r.facility_id
      · rw [if_pos hg, find_group_cons_mk]
        by_cases hk : k = r.facility_id
        · have hgk : (g.1 == k) = true := beq_iff_eq.mpr (hg.trans hk.symm)
          have hrw : find_group (g :: rest) k = some g := by
            rw [find_group_cons, if_pos hgk]
          rw [if_pos hgk, if_pos hk, hrw]
        · have hgk : (g.1 == k) = false :=
            beq_eq_false_iff_ne.mpr (fun he => hk (he.symm.trans hg))
          have hngk : ¬ ((g.1 == k) = true) := by simp [hgk]
          have hrw : find_group (g :: rest) k = find_group rest k := by
            rw [find_group_cons, if_neg hngk]
          rw [if_neg hngk, if_neg hk, hrw]
      · rw [if_neg hg, find_group_cons]
        by_cases hgk : (g.1 == k) = true
        · have hk : ¬ k = r.facility_id := fun he => hg ((beq_iff_eq.mp hgk).trans he)
          have hrw : find_group (g :: rest) k = some g := by
            rw [find_group_cons, if_pos hgk]
          rw [if_pos hgk, if_neg hk, hrw]
        · have hrw : find_group (g :: rest) k = find_group rest k := by
            rw [find_group_cons, if_neg hgk]
          rw [if_neg hgk, ih, hrw]

theorem group_by_facility_concat (rows : List (ResultRow α)) (r : ResultRow α) :
    group_by_facility (rows ++ [r]) = insert_group (group_by_facility rows) r := by
  simp [group_by_facility, List.foldl_concat]

theorem dedup_first_seen_concat (l : List Nat) (i : Nat) :
    dedup_first_seen (l ++ [i]) =
      if (dedup_first_seen l).contains i then dedup_first_seen l
      else dedup_first_seen l ++ [i] := by
  simp [dedup_first_seen, List.foldl_concat]

theorem group_by_facility_keys (rows : List (ResultRow α)) :
    (group_by_facility rows).map (fun g => g.1) =
      dedup_first_seen (rows.map (fun r => r.facility_id)) := by
  induction rows using List.reverseRecOn with
  | nil => rfl
  | append_singleton rows r ih =>
      rw [group_by_facility_concat, insert_group_keys, ih, List.map_append]
      show _ = dedup_first_seen (_ ++ [r.facility_id])
      rw [dedup_first_seen_concat]

theorem dedup_first_seen_nodup (l : List Nat) : (dedup_first_seen l).Nodup := by
  induction l using List.reverseRecOn with
  | nil => exact List.nodup_nil
  | append_singleton l i ih =>
      rw [dedup_first_seen_concat]
      by_cases h : (dedup_first_seen l).contains i = true
      · rw [if_pos h]
        exact ih
      · have hmem : i ∉ dedup_first_seen l := by
          intro hm
          exact h (by simpa using hm)
        simp only [eq_false_of_ne_true h, if_false]
        exact List.nodup_append.mpr ⟨ih, List.nodup_singleton i,
          by intro a ha hb; simp at hb; exact hmem (hb ▸ ha)⟩

theorem group_by_facility_keys_nodup (rows : List (ResultRow α)) :
    ((group_by_facility rows).map (fun g => g.1)).Nodup := by
  rw [group_by_facility_keys]
  exact dedup_first_seen_nodup _

theorem find_group_group_by_facility (rows : List (ResultRow α)) (k : Nat) :
    find_group (group_by_facility rows) k =
      (rows.find? (fun r => r.facility_id == k)).map
        (fun r0 => (k, r0,
          (rows.filter (fun r => r.facility_id == k)).map mk_antivenom_info_grouped)) := by
  induction rows using List.reverseRecOn with
  | nil => rfl
  | append_singleton rows r ih =>
      rw [group_by_facility_concat, find_group_insert]
      by_cases hk : k = r.facility_id
      · subst hk
        rw [if_pos rfl, ih]
        cases hfind : rows.find? (fun q => q.facility_id == r.facility_id) with
        | none =>
            have hfilter : rows.filter (fun q => q.facility_id == r.facility_id) = [] :=
              List.filter_eq_nil_iff.mpr (List.find?_eq_none.mp hfind)
            simp [List.find?_append, hfind, List.filter_append, hfilter, List.filter]
        | some r0 =>
            simp [List.find?_append, hfind, List.filter_append, List.filter]
      · have hrkf : (r.facility_id == k) = false :=
          beq_eq_false_iff_ne.mpr (fun he => hk he.symm)
        rw [if_neg hk, ih]
        have hfr : [r].find? (fun q => q.facility_id == k) = none := by
          simp [List.find?, hrkf]
        have hflt : [r].filter (fun q => q.facility_id == k) = [] := by
          simp [List.filter, hrkf]
        simp [List.find?_append, hfr, List.filter_append, hflt]

theorem find_group_of_mem {gs : List (FacilityGroup α)}
    (hn : (gs.map (fun g => g.1)).Nodup) {g : FacilityGroup α} (hg : g ∈ gs) :
    find_group gs g.1 = some g := by
  induction gs with
  | nil => cases hg
  | cons g0 rest ih =>
      have hn' : (g0.1 :: rest.map (fun g => g.1)).Nodup := by simpa using hn
      rcases List.mem_cons.mp hg with rfl | hmem
      · exact List.find?_cons_of_pos _ (by simp)
      · have hne : ¬ ((g0.1 == g.1) = true) := by
          simp only [beq_iff_eq]
          intro he
          have h1 : g.1 ∈ rest.map (fun g => g.1) := List.mem_map_of_mem _ hmem
          have h2 := (List.nodup_cons.mp hn').1
          exact h2 (he ▸ h1)
        rw [find_group_cons, if_neg hne]
        exact ih (by simpa using (List.nodup_cons.mp hn').2) hmem

/-- Every entry of the grouping dict carries its first-seen row as
representative and aggregates exactly its facility's rows. -/
theorem mem_group_by_facility {rows : List (ResultRow α)} {g : FacilityGroup α}
    (hg : g ∈ group_by_facility rows) :
    rows.find? (fun r => r.facility_id == g.1) = some g.2.1 ∧
      g.2.2 = (rows.filter (fun r => r.facility_id == g.1)).map mk_antivenom_info_grouped ∧
      g.2.1.facility_id = g.1 := by
  have h1 := find_group_of_mem (group_by_facility_keys_nodup rows) hg
  rw [find_group_group_by_facility] at h1
  cases hfind : rows.find? (fun r => r.facility_id == g.1) with
  | none => rw [hfind] at h1; cases h1
  | some r0 =>
      rw [hfind] at h1
      have h1' : (g.1, r0,
          (rows.filter (fun r => r.facility_id == g.1)).map mk_antivenom_info_grouped) = g := by
        simpa using h1
      have hr0 : r0 = g.2.1 := by rw [← h1']
      have hagg : g.2.2 =
          (rows.filter (fun r => r.facility_id == g.1)).map mk_antivenom_info_grouped := by
        rw [← h1']
      refine ⟨?_, hagg, ?_⟩
      · rw [hr0]
      · have := List.find?_some hfind
        simpa [beq_iff_eq, hr0] using this

/-- Entry invariants of the per-record loop under a total resolver. -/
theorem process_facilities_inv {resolve : α → α → α → α → RouteResult α}
    (hres : ResolverTotal resolve) {userLat userLon : α} {maxDistance : Option α}
    {rows : List (ResultRow α)} {e : FacilityWithDistance α}
    (h : e ∈ process_facilities resolve userLat userLon maxDistance rows) :
    resolved_distance e.facility = e.distance_km ∧ e.distance_km.isSome = true ∧
      e.facility.antivenoms.length = 1 ∧
      has_coordinates e.facility.latitude e.facility.longitude = true := by
  obtain ⟨r, hr, hc, hd, rfl⟩ := mem_process_facilities h
  refine ⟨entry_resolved_distance hres _, (hres _ _ _ _).2, rfl, ?_⟩
  simpa [mk_facility_info] using hc

/-- Entry invariants of the fallback loop under a total resolver. -/
theorem process_fallback_inv {resolve : α → α → α → α → RouteResult α}
    (hres : ResolverTotal resolve) {userLat userLon : α}
    {facs : List (FacilityRow α)} {e : FacilityWithDistance α}
    (h : e ∈ process_fallback_facilities resolve userLat userLon facs) :
    resolved_distance e.facility = e.distance_km ∧ e.distance_km.isSome = true ∧
      e.facility.antivenoms = [] ∧
      has_coordinates e.facility.latitude e.facility.longitude = true := by
  obtain ⟨f, hf, hc, rfl⟩ := mem_process_fallback_facilities h
  refine ⟨fallback_entry_resolved_distance hres, (hres _ _ _ _).2, rfl, ?_⟩
  simpa [mk_fallback_facility_info] using hc

/-- Entry invariants of the grouped loop under a total resolver. -/
theorem process_facility_groups_inv {resolve : α → α → α → α → RouteResult α}
    (hres : ResolverTotal resolve) {userLat userLon : α} {maxDistance : Option α}
    {gs : List (FacilityGroup α)} {e : FacilityWithDistance α}
    (h : e ∈ process_facility_groups resolve userLat userLon maxDistance gs) :
    resolved_distance e.facility = e.distance_km ∧ e.distance_km.isSome = true ∧
      has_coordinates e.facility.latitude e.facility.longitude = true := by
  obtain ⟨g, hg, hc, hd, rfl⟩ := mem_process_facility_groups h
  refine ⟨entry_resolved_distance hres _, (hres _ _ _ _).2, ?_⟩
  simpa [mk_facility_info] using hc

/-- Sortedness of a response facility list: any sublist of a sorted
working list maps to a facility list that is non-decreasing in resolved
distance. -/
theorem map_facility_pairwise_of_sorted {l sorted s : List (FacilityWithDistance α)}
    (hsort : sort_by_distance l = some sorted) (hs : s.Sublist sorted)
    (hinv : ∀ e ∈ l, resolved_distance e.facility = e.distance_km) :
    (s.map (fun e => e.facility)).Pairwise
      (fun x y => (resolved_distance x).getD 0 ≤ (resolved_distance y).getD 0) := by
  have hsorted : s.Pairwise by_distance :=
    List.Pairwise.sublist hs (sort_by_distance_sorted hsort)
  rw [List.pairwise_map]
  refine List.Pairwise.imp_of_mem ?_ hsorted
  intro a b ha hb hab
  have ha' : a ∈ l := (sort_by_distance_perm hsort).subset (hs.subset ha)
  have hb' : b ∈ l := (sort_by_distance_perm hsort).subset (hs.subset hb)
  show (resolved_distance a.facility).getD 0 ≤ (resolved_distance b.facility).getD 0
  rw [hinv a ha', hinv b hb']
  exact hab

/-- A candidate kept by a positive max-distance filter has distance at
most the maximum. -/
theorem le_of_not_beyond {m d : α} (hm : 0 < m)
    (h : beyond_max_distance (some m) (some d) = false) : d ≤ m := by
  by_cases hd : d = 0
  · rw [hd]
    exact le_of_lt hm
  · have hm' : truthy_num (some m) = true := by
      simp [truthy_num, ne_of_gt hm]
    have hd' : truthy_num (some d) = true := by
      simp [truthy_num, hd]
    unfold beyond_max_distance at h
    rw [hm', hd'] at h
    simp only [Option.getD_some, Bool.true_and, decide_eq_false_iff_not] at h
    exact not_lt.mp h

/-- A non-empty primary search means the finder's validation guard
passed. -/
theorem validation_pass_of_rows_ne {db : DB α} {today : Int}
    {req : AntivenomFinderRequest α} {rows : List (ResultRow α)}
    (hrows : finder_primary_rows db today req = some rows) (hne : rows ≠ []) :
    (!truthy_str req.snake_common_name && !truthy_nat req.snake_id &&
      !truthy_str req.antivenom_type) = false := by
  cases hb : (!truthy_str req.snake_common_name && !truthy_nat req.snake_id &&
      !truthy_str req.antivenom_type) with
  | false => rfl
  | true =>
      exfalso
      simp only [Bool.and_eq_true, Bool.not_eq_true'] at hb
      unfold finder_primary_rows at hrows
      rw [hb.1.1, hb.1.2, hb.2] at hrows
      simp at hrows
      exact hne hrows

/-- A non-empty search result means the facilities endpoint's validation
guard passed. -/
theorem list_validation_pass_of_rows_ne {db : DB α} {today : Int}
    {req : FacilityListRequest α}
    (hne : list_primary_rows db today req ≠ []) :
    (!truthy_str req.antivenom_name && !truthy_nat req.snake_id) = false := by
  cases hb : (!truthy_str req.antivenom_name && !truthy_nat req.snake_id) with
  | false => rfl
  | true =>
      exfalso
      simp only [Bool.and_eq_true, Bool.not_eq_true'] at hb
      apply hne
      unfold list_primary_rows
      rw [hb.1, hb.2]
      simp

theorem find_antivenom_some_elim {db : DB α} {today : Int}
    {resolve : α → α → α → α → RouteResult α} {fmt : α → String}
    {allF : Except Unit Unit} {req : AntivenomFinderRequest α} {resp : FinderResponse α}
    (h : find_antivenom db today resolve fmt allF req = some resp) :
    ∃ radius rows, req.max_distance_km = some radius ∧
      finder_primary_rows db today req = some rows ∧
      finder_build_response db today resolve fmt allF req radius rows = some resp := by
  unfold find_antivenom at h
  split at h
  · exact absurd h (by simp)
  · split at h
    · exact absurd h (by simp)
    · rename_i radius hmax
      split at h
      · exact absurd h (by simp)
      · rename_i rows hrows
        exact ⟨radius, rows, hmax, hrows, h⟩

theorem get_facilities_some_elim {db : DB α} {today : Int}
    {resolve : α → α → α → α → RouteResult α} {fmt : α → String}
    {req : FacilityListRequest α} {resp : FinderResponse α}
    (h : get_facilities_with_antivenom db today resolve fmt req = some resp) :
    ∃ radius, req.max_distance_km = some radius ∧
      list_build_response db today resolve fmt req radius
        (list_primary_rows db today req) = some resp := by
  unfold get_facilities_with_antivenom at h
  split at h
  · exact absurd h (by simp)
  · split at h
    · exact absurd h (by simp)
    · rename_i radius hmax
      exact ⟨radius, hmax, h⟩

/-- Shape analysis of every response the finder can return: the reported
count always equals the list length, `success` is always true, and the
facility list is empty, the mapped prefix of a sorted fallback list, or
the mapped image of a sorted candidate list. -/
theorem finder_build_response_cases {db : DB α} {today : Int}
    {resolve : α → α → α → α → RouteResult α} {fmt : α → String}
    {allF : Except Unit Unit} {req : AntivenomFinderRequest α} {radius : α}
    {rows : List (ResultRow α)} {resp : FinderResponse α}
    (h : finder_build_response db today resolve fmt allF req radius rows = some resp) :
    (resp.success = true ∧ resp.facilities_found = resp.facilities.length) ∧
    (resp.facilities = [] ∨
      (∃ sorted, sort_by_distance (process_fallback_facilities resolve
          req.user_latitude req.user_longitude db.facilities) = some sorted ∧
        resp.facilities = (sorted.take 5).map (fun e => e.facility) ∧ rows = []) ∨
      (∃ sorted, sort_by_distance (process_facilities resolve
          req.user_latitude req.user_longitude req.max_distance_km rows) = some sorted ∧
        resp.facilities = sorted.map (fun e => e.facility))) := by
  unfold finder_build_response at h
  dsimp only at h
  split at h
  next hempty =>
    split at h
    · injection h with h
      subst h
      exact ⟨⟨rfl, rfl⟩, Or.inl rfl⟩
    · split at h
      · injection h with h
        subst h
        exact ⟨⟨rfl, rfl⟩, Or.inl rfl⟩
      · split at h
        · injection h with h
          subst h
          exact ⟨⟨rfl, rfl⟩, Or.inl rfl⟩
        · split at h
          · injection h with h
            subst h
            exact ⟨⟨rfl, rfl⟩, Or.inl rfl⟩
          · rename_i sorted hsort
            injection h with h
            subst h
            exact ⟨⟨rfl, by simp⟩, Or.inr (Or.inl ⟨sorted, hsort, rfl,
              List.isEmpty_iff.mp hempty⟩)⟩
  · split at h
    · exact absurd h (by simp)
    · rename_i sorted hsort
      injection h with h
      subst h
      exact ⟨⟨rfl, by simp⟩, Or.inr (Or.inr ⟨sorted, hsort, rfl⟩)⟩

/-- Shape analysis of every response the facilities endpoint can return. -/
theorem list_build_response_cases {db : DB α} {today : Int}
    {resolve : α → α → α → α → RouteResult α} {fmt : α → String}
    {req : FacilityListRequest α} {radius : α}
    {rows : List (ResultRow α)} {resp : FinderResponse α}
    (h : list_build_response db today resolve fmt req radius rows = some resp) :
    (resp.success = true ∧ resp.facilities_found = resp.facilities.length) ∧
    (resp.facilities = [] ∨
      ∃ sorted, sort_by_distance (process_facility_groups resolve
          req.user_latitude req.user_longitude req.max_distance_km
          (group_by_facility rows)) = some sorted ∧
        resp.facilities = sorted.map (fun e => e.facility)) := by
  unfold list_build_response at h
  dsimp only at h
  split at h
  · injection h with h
    subst h
    exact ⟨⟨rfl, rfl⟩, Or.inl rfl⟩
  · split at h
    · exact absurd h (by simp)
    · rename_i sorted hsort
      injection h with h
      subst h
      exact ⟨⟨rfl, by simp⟩, Or.inr ⟨sorted, hsort, rfl⟩⟩

/-- Introduction form for the per-record loop: a row with coordinates
whose resolved distance survives the max-distance filter yields its
entry. -/
theorem mem_process_facilities_intro {resolve : α → α → α → α → RouteResult α}
    {userLat userLon : α} {maxDistance : Option α} {rows : List (ResultRow α)}
    {r : ResultRow α} (hr : r ∈ rows)
    (hc : has_coordinates r.latitude r.longitude = true)
    (hd : beyond_max_distance maxDistance
      (resolve userLat userLon (r.latitude.getD 0) (r.longitude.getD 0)).distance_km
        = false) :
    ({ facility := mk_facility_info r [mk_antivenom_info r]
         (resolve userLat userLon (r.latitude.getD 0) (r.longitude.getD 0))
       distance_km := (resolve userLat userLon (r.latitude.getD 0)
         (r.longitude.getD 0)).distance_km } : FacilityWithDistance α) ∈
      process_facilities resolve userLat userLon maxDistance rows := by
  apply List.mem_filterMap.mpr
  refine ⟨r, hr, ?_⟩
  simp [hc, hd]

/-- The main (non-empty primary search) branch of the finder's response:
its facility list is the mapped sorted candidate list. -/
theorem finder_build_response_main {db : DB α} {today : Int}
    {resolve : α → α → α → α → RouteResult α} {fmt : α → String}
    {allF : Except Unit Unit} {req : AntivenomFinderRequest α} {radius : α}
    {rows : List (ResultRow α)} {sorted : List (FacilityWithDistance α)}
    (hne : rows ≠ [])
    (hsort : sort_by_distance (process_facilities resolve req.user_latitude
      req.user_longitude req.max_distance_km rows) = some sorted) :
    ∃ resp, finder_build_response db today resolve fmt allF req radius rows = some resp ∧
      resp.facilities = sorted.map (fun e => e.facility) := by
  unfold finder_build_response
  rw [if_neg (by simp [List.isEmpty_iff, hne])]
  dsimp only
  rw [hsort]
  exact ⟨_, rfl, rfl⟩

theorem find_antivenom_eq_build {db : DB α} {today : Int}
    {resolve : α → α → α → α → RouteResult α} {fmt : α → String}
    {allF : Except Unit Unit} {req : AntivenomFinderRequest α} {radius : α}
    {rows : List (ResultRow α)}
    (hval : (!truthy_str req.snake_common_name && !truthy_nat req.snake_id &&
      !truthy_str req.antivenom_type) = false)
    (hmax : req.max_distance_km = some radius)
    (hrows : finder_primary_rows db today req = some rows) :
    find_antivenom db today resolve fmt allF req =
      finder_build_response db today resolve fmt allF req radius rows := by
  unfold find_antivenom
  rw [hval, hmax, hrows]
  rfl

theorem get_facilities_eq_build {db : DB α} {today : Int}
    {resolve : α → α → α → α → RouteResult α} {fmt : α → String}
    {req : FacilityListRequest α} {radius : α}
    (hval : (!truthy_str req.antivenom_name && !truthy_nat req.snake_id) = false)
    (hmax : req.max_distance_km = some radius) :
    get_facilities_with_antivenom db today resolve fmt req =
      list_build_response db today resolve fmt req radius (list_primary_rows db today req) := by
  unfold get_facilities_with_antivenom
  rw [hval, hmax]
  rfl

/-- The key of each entry produced by `filterMap` projects into the key
sequence of its source list. -/
theorem map_filterMap_sublist_keys {β γ : Type} (f : β → Option γ) (key : γ → Nat)
    (keyb : β → Nat) (l : List β)
    (h : ∀ b ∈ l, ∀ e, f b = some e → key e = keyb b) :
    ((l.filterMap f).map key).Sublist (l.map keyb) := by
  induction l with
  | nil => simp
  | cons b t ih =>
      rw [List.filterMap_cons]
      cases hf : f b with
      | none =>
          exact (ih (fun b hb e he => h b (List.mem_cons_of_mem _ hb) e he)).trans
            (List.sublist_cons_self _ _)
      | some e =>
          rw [List.map_cons, List.map_cons, h b (List.mem_cons_self b t) e hf]
          exact (ih (fun b hb e he => h b (List.mem_cons_of_mem _ hb) e he)).cons₂ _

end Router

namespace Osrm

/-- `get_route_with_fallback` always reports success with a distance:
on a primary success it returns the parsed route, on any failure the
haversine fallback record. -/
theorem get_route_with_fallback_total (p : PrimaryOutcome) (a b c d : ℝ) :
    (get_route_with_fallback p a b c d).success = true ∧
      (get_route_with_fallback p a b c d).distance_km.isSome = true := by
  cases p with
  | ok dm ds => exact ⟨rfl, rfl⟩
  | timeout => exact ⟨rfl, rfl⟩
  | httpError code => exact ⟨rfl, rfl⟩
  | requestError msg => exact ⟨rfl, rfl⟩

/-- On any primary failure, `get_route_with_fallback` returns exactly the
straight-line fallback record. -/
theorem get_route_with_fallback_of_failure (p : PrimaryOutcome)
    (hp : p.isFailure = true) (a b c d : ℝ) :
    get_route_with_fallback p a b c d =
      { success := true
        fallback := true
        distance_meters := some (calculate_straight_line_distance a b c d * 1000)
        distance_km := some (round2 (calculate_straight_line_distance a b c d))
        duration_seconds := some (calculate_straight_line_distance a b c d / 50 * 3600)
        duration_minutes :=
          some (round1 (calculate_straight_line_distance a b c d / 50 * 3600 / 60))
        duration_hours := some (round2 (calculate_straight_line_distance a b c d / 50))
        note := some "Estimated based on straight-line distance (routing service unavailable)" } := by
  cases p with
  | ok dm ds => exact absurd hp (by simp [PrimaryOutcome.isFailure])
  | timeout => rfl
  | httpError code => rfl
  | requestError msg => rfl

/-- The haversine distance between a point and itself is zero. -/
theorem calculate_straight_line_distance_self (lat lon : ℝ) :
    calculate_straight_line_distance lat lon lat lon = 0 := by
  unfold calculate_straight_line_distance
  simp

end Osrm

/-! ## Concrete fixtures for witnesses and counterexamples -/

/-- An empty database snapshot. -/
def db_empty : DB ℚ :=
  { snakes := [], antivenom_types := [], antivenoms := [],
    antivenom_snake_targets := [], facility_antivenom_stock := [], facilities := [] }

/-- A resolver that always succeeds and reports the destination latitude
as the distance (so concrete facilities can be ranked). -/
def resolve_by_lat : ℚ → ℚ → ℚ → ℚ → Router.RouteResult ℚ :=
  fun _ _ lat _ => { success := true, distance_km := some lat }

/-- A trivial float formatter for concrete runs. -/
def fmt_none : ℚ → String := fun _ => ""

/-- A concrete facility row. -/
def mk_fac (i : Nat) (name : String) (lat lon : Option ℚ) : FacilityRow ℚ :=
  { facility_id := i, facility_name := name, facility_type := "hospital",
    region := "R", province := "P", city_municipality := "C", address := none,
    latitude := lat, longitude := lon, contact_number := none,
    facility_email := none, image_url := none }

/-- Five coordinate-bearing facilities and an empty inventory. -/
def db_five : DB ℚ :=
  { snakes := [], antivenom_types := [], antivenoms := [], antivenom_snake_targets := [],
    facility_antivenom_stock := [],
    facilities := [mk_fac 1 "A" (some 10) (some 1), mk_fac 2 "B" (some 20) (some 1),
      mk_fac 3 "C" (some 30) (some 1), mk_fac 4 "D" (some 5) (some 1),
      mk_fac 5 "E" (some 40) (some 1)] }

/-- A snake-identity request (no antivenom type). -/
def req_snake : Router.AntivenomFinderRequest ℚ :=
  { snake_common_name := none, snake_id := some 1, antivenom_type := none,
    user_latitude := 1, user_longitude := 1, max_distance_km := some 100 }

/-- One facility sitting exactly on the equator (latitude 0) and one
with ordinary coordinates. -/
def db_zero_lat : DB ℚ :=
  { snakes := [], antivenom_types := [], antivenoms := [], antivenom_snake_targets := [],
    facility_antivenom_stock := [],
    facilities := [mk_fac 1 "Z" (some 0) (some 25), mk_fac 2 "N" (some 3) (some 4)] }

/-- One target antivenom stocked (unexpired, positive quantity) at two
coordinate-bearing facilities. -/
def db_stock : DB ℚ :=
  { snakes := [],
    antivenom_types := [],
    antivenoms := [{ antivenom_id := 3, product_name := "AV", manufacturer := none,
                     type_id := 1 }],
    antivenom_snake_targets := [{ antivenom_id := 3, snake_id := 1 }],
    facility_antivenom_stock :=
      [{ stock_id := 1, facility_id := 10, antivenom_id := 3, quantity := 4,
         expiration_date := none, batch_no := none },
       { stock_id := 2, facility_id := 11, antivenom_id := 3, quantity := 2,
         expiration_date := none, batch_no := none }],
    facilities := [mk_fac 10 "A" (some 7) (some 1), mk_fac 11 "B" (some 2) (some 1)] }

/-! ## Claim theorems -/

/-- C6: a type-driven search with zero candidates returns a successful
empty result (zero found, empty list) whose message names the searched
type, and a name-driven search with zero candidates returns a successful
empty result with the endpoint's generic explanatory message; in both
cases no fallback facilities are included. -/
theorem c6_zero_candidate_type_and_name_search {α : Type} [LinearOrder α] [Zero α]
    [DecidableEq α] (db : DB α) (today : Int)
    (resolve : α → α → α → α → Router.RouteResult α) (fmt : α → String)
    (allF : Except Unit Unit) :
    (∀ (req : Router.AntivenomFinderRequest α) (ty : String) (radius : α),
      truthy_str req.snake_common_name = false →
      truthy_nat req.snake_id = false →
      req.antivenom_type = some ty →
      (ty = "polyvalent" ∨ ty = "monovalent") →
      req.max_distance_km = some radius →
      Db.get_facilities_by_antivenom_type db today ty = [] →
      Router.find_antivenom db today resolve fmt allF req =
        some { success := true
               message := "No facilities found with " ++ ty ++ " antivenom"
               facilities_found := 0
               facilities := []
               search_radius_km := radius }) ∧
    (∀ (req : Router.FacilityListRequest α) (radius : α),
      (truthy_str req.antivenom_name || truthy_nat req.snake_id) = true →
      req.max_distance_km = some radius →
      Router.list_primary_rows db today req = [] →
      Router.get_facilities_with_antivenom db today resolve fmt req =
        some { success := true
               message := "No facilities found matching the criteria"
               facilities_found := 0
               facilities := []
               search_radius_km := radius }) := by
  constructor
  · intro req ty radius hname hid hty hvalid hmax hrows
    have htyt : truthy_str req.antivenom_type = true := by
      rw [hty]
      rcases hvalid with rfl | rfl <;> rfl
    have hval : (!truthy_str req.snake_common_name && !truthy_nat req.snake_id &&
        !truthy_str req.antivenom_type) = false := by
      rw [hname, hid, htyt]
      rfl
    have hprimary : Router.finder_primary_rows db today req = some [] := by
      unfold Router.finder_primary_rows
      rw [hid, hname, htyt]
      simp only [Bool.or_self, Bool.false_eq_true, if_false, if_true]
      rw [if_pos (by rcases hvalid with rfl | rfl
                     · exact Or.inl hty
                     · exact Or.inr hty)]
      rw [hty]
      simp [hrows]
    rw [Router.find_antivenom_eq_build hval hmax hprimary]
    unfold Router.finder_build_response
    rw [if_pos (show ([] : List (ResultRow α)).isEmpty = true from rfl), htyt,
      if_pos rfl, hty]
    simp
  · intro req radius hval' hmax hrows
    have hval : (!truthy_str req.antivenom_name && !truthy_nat req.snake_id) = false := by
      cases ha : truthy_str req.antivenom_name <;>
        cases hb : truthy_nat req.snake_id <;> simp_all
    rw [Router.get_facilities_eq_build hval hmax, hrows]
    unfold Router.list_build_response
    simp

/-- C6 witness: a concrete type search and a concrete name search over an
empty inventory both produce the successful zero-result responses. -/
theorem c6_witness :
    Db.get_facilities_by_antivenom_type (α := ℚ)
      { snakes := [], antivenom_types := [], antivenoms := [],
        antivenom_snake_targets := [], facility_antivenom_stock := [], facilities := [] }
      0 "monovalent" = [] ∧
    Router.find_antivenom (α := ℚ)
      { snakes := [], antivenom_types := [], antivenoms := [],
        antivenom_snake_targets := [], facility_antivenom_stock := [], facilities := [] }
      0 (fun _ _ _ _ => { success := true, distance_km := some 1 }) (fun _ => "")
      (.ok ())
      { snake_common_name := none, snake_id := none, antivenom_type := some "monovalent",
        user_latitude := 1, user_longitude := 1, max_distance_km := some 100 } =
      some { success := true
             message := "No facilities found with monovalent antivenom"
             facilities_found := 0
             facilities := []
             search_radius_km := 100 } ∧
    Router.get_facilities_with_antivenom (α := ℚ)
      { snakes := [], antivenom_types := [], antivenoms := [],
        antivenom_snake_targets := [], facility_antivenom_stock := [], facilities := [] }
      0 (fun _ _ _ _ => { success := true, distance_km := some 1 }) (fun _ => "")
      { antivenom_name := some "ACP", snake_id := none,
        user_latitude := 1, user_longitude := 1, max_distance_km := some 200 } =
      some { success := true
             message := "No facilities found matching the criteria"
             facilities_found := 0
             facilities := []
             search_radius_km := 200 } := by
  refine ⟨rfl, ?_, ?_⟩
  · exact (c6_zero_candidate_type_and_name_search _ 0 _ _ _).1 _ "monovalent" 100
      rfl rfl rfl (Or.inr rfl) rfl rfl
  · exact (c6_zero_candidate_type_and_name_search _ 0 _ _ (.ok ())).2 _ 200 rfl rfl rfl

/-- C7 counterexample: when the degraded all-facilities repository call
fails (rather than returning an empty list), the response is still a
successful empty result, but its message is the snake-species one, not
the claimed "no facilities exist in the system" message. -/
theorem c7_counterexample :
    Router.find_antivenom db_empty 0 resolve_by_lat fmt_none (.error ())
      { snake_common_name := none, snake_id := some 1, antivenom_type := none,
        user_latitude := 1, user_longitude := 1, max_distance_km := some 100 } =
      some { success := true
             message := "No facilities found with antivenom for this snake species"
             facilities_found := 0
             facilities := []
             search_radius_km := 100 } ∧
    "No facilities found with antivenom for this snake species" ≠
      "No facilities found in the system" := by
  exact ⟨rfl, by decide⟩

/-- C7 (amended): for an identity-driven search with zero primary
candidates (and no antivenom type set), no error is propagated to the
caller in either degraded outcome: when the all-facilities repository
call returns an empty list the successful empty response says no
facilities exist in the system, and when that call fails the response is
still a successful empty result, but its message is the generic
"no facilities found with antivenom for this snake species" one. -/
theorem c7_degraded_empty_and_failure {α : Type} [LinearOrder α] [Zero α]
    [DecidableEq α] (db : DB α) (today : Int)
    (resolve : α → α → α → α → Router.RouteResult α) (fmt : α → String)
    (req : Router.AntivenomFinderRequest α) (radius : α)
    (hor : (truthy_nat req.snake_id || truthy_str req.snake_common_name) = true)
    (hty : truthy_str req.antivenom_type = false)
    (hmax : req.max_distance_km = some radius)
    (hrows : Router.finder_primary_rows db today req = some []) :
    Router.find_antivenom db today resolve fmt (.error ()) req =
      some { success := true
             message := "No facilities found with antivenom for this snake species"
             facilities_found := 0
             facilities := []
             search_radius_km := radius } ∧
    (db.facilities = [] →
      Router.find_antivenom db today resolve fmt (.ok ()) req =
        some { success := true
               message := "No facilities found in the system"
               facilities_found := 0
               facilities := []
               search_radius_km := radius }) := by
  have hval : (!truthy_str req.snake_common_name && !truthy_nat req.snake_id &&
      !truthy_str req.antivenom_type) = false := by
    have hor' : truthy_nat req.snake_id = true ∨ truthy_str req.snake_common_name = true := by
      simpa using hor
    rcases hor' with h | h
    · rw [h]
      simp
    · rw [h]
      simp
  constructor
  · rw [Router.find_antivenom_eq_build hval hmax hrows]
    unfold Router.finder_build_response
    rw [if_pos (show ([] : List (ResultRow α)).isEmpty = true from rfl), hty]
    rfl
  · intro hfac
    rw [Router.find_antivenom_eq_build hval hmax hrows]
    unfold Router.finder_build_response
    rw [if_pos (show ([] : List (ResultRow α)).isEmpty = true from rfl), hty]
    simp [Db.get_all_facilities, hfac]

/-- C7 witness: a concrete identity search over an empty system hits
both degraded outcomes. -/
theorem c7_witness :
    Router.finder_primary_rows db_empty 0
      { snake_common_name := none, snake_id := some 1, antivenom_type := none,
        user_latitude := 1, user_longitude := 1, max_distance_km := some 100 } = some [] ∧
    Router.find_antivenom db_empty 0 resolve_by_lat fmt_none (.ok ())
      { snake_common_name := none, snake_id := some 1, antivenom_type := none,
        user_latitude := 1, user_longitude := 1, max_distance_km := some 100 } =
      some { success := true
             message := "No facilities found in the system"
             facilities_found := 0
             facilities := []
             search_radius_km := 100 } := by
  refine ⟨rfl, ?_⟩
  exact (c7_degraded_empty_and_failure db_empty 0 resolve_by_lat fmt_none
    { snake_common_name := none, snake_id := some 1, antivenom_type := none,
      user_latitude := 1, user_longitude := 1, max_distance_km := some 100 } 100
    rfl rfl rfl rfl).2 rfl

/-- C5 counterexample: a request that is identity-driven (snake id set,
so CASE 1 runs and finds nothing) but also carries an antivenom type
does NOT degrade to the nearest-facility fallback, although the
all-facilities call would return five coordinate-bearing facilities: the
code returns the type-search empty message with no facilities. -/
theorem c5_counterexample :
    Router.find_antivenom db_five 0 resolve_by_lat fmt_none (.ok ())
      { snake_common_name := none, snake_id := some 1, antivenom_type := some "polyvalent",
        user_latitude := 1, user_longitude := 1, max_distance_km := some 100 } =
      some { success := true
             message := "No facilities found with polyvalent antivenom"
             facilities_found := 0
             facilities := []
             search_radius_km := 100 } ∧
    Router.finder_primary_rows db_five 0
      { snake_common_name := none, snake_id := some 1, antivenom_type := some "polyvalent",
        user_latitude := 1, user_longitude := 1, max_distance_km := some 100 } = some [] ∧
    (Db.get_all_facilities db_five).length = 5 ∧
    (∀ f ∈ Db.get_all_facilities db_five,
      Router.has_coordinates f.latitude f.longitude = true) ∧
    "No facilities found with polyvalent antivenom" ≠
      "No facilities with specific antivenom found. Showing 5 nearest facilities. Please contact them for alternative treatment options." := by
  exact ⟨rfl, rfl, rfl, by decide, by decide⟩

/-- C5 (amended): for an identity-driven search with zero primary
candidates that does not also set an antivenom type, when the
all-facilities call succeeds on a non-empty facility list the response
is the mapped 5-element prefix of the distance-sorted fallback list: at
most 5 facilities, each with an empty antivenom list, non-decreasing in
resolved distance, with the message naming the count shown and advising
to contact them for alternative treatment. -/
theorem c5_identity_fallback_nearest {α : Type} [LinearOrder α] [Zero α]
    [DecidableEq α] (db : DB α) (today : Int)
    (resolve : α → α → α → α → Router.RouteResult α) (fmt : α → String)
    (req : Router.AntivenomFinderRequest α) (radius : α)
    (hres : Router.ResolverTotal resolve)
    (hor : (truthy_nat req.snake_id || truthy_str req.snake_common_name) = true)
    (hty : truthy_str req.antivenom_type = false)
    (hmax : req.max_distance_km = some radius)
    (hrows : Router.finder_primary_rows db today req = some [])
    (hfac : db.facilities ≠ []) :
    ∃ sorted, Router.sort_by_distance (Router.process_fallback_facilities resolve
        req.user_latitude req.user_longitude db.facilities) = some sorted ∧
      Router.find_antivenom db today resolve fmt (.ok ()) req =
        some { success := true
               message := "No facilities with specific antivenom found. Showing " ++
                 toString ((sorted.take 5).map (fun e => e.facility)).length ++
                 " nearest facilities. Please contact them for alternative treatment options."
               facilities_found := ((sorted.take 5).map (fun e => e.facility)).length
               facilities := (sorted.take 5).map (fun e => e.facility)
               search_radius_km := radius } ∧
      ((sorted.take 5).map (fun e => e.facility)).length ≤ 5 ∧
      (∀ fi ∈ (sorted.take 5).map (fun e => e.facility), fi.antivenoms = []) ∧
      ((sorted.take 5).map (fun e => e.facility)).Pairwise
        (fun x y => (Router.resolved_distance x).getD 0 ≤
          (Router.resolved_distance y).getD 0) := by
  have hval : (!truthy_str req.snake_common_name && !truthy_nat req.snake_id &&
      !truthy_str req.antivenom_type) = false := by
    have hor' : truthy_nat req.snake_id = true ∨ truthy_str req.snake_common_name = true := by
      simpa using hor
    rcases hor' with h | h
    · rw [h]
      simp
    · rw [h]
      simp
  have hall : ∀ e ∈ Router.process_fallback_facilities resolve
      req.user_latitude req.user_longitude db.facilities, e.distance_km.isSome = true :=
    fun e he => (Router.process_fallback_inv hres he).2.1
  have hsort := Router.sort_by_distance_of_all_some hall
  refine ⟨_, hsort, ?_, ?_, ?_, ?_⟩
  · rw [Router.find_antivenom_eq_build hval hmax hrows]
    unfold Router.finder_build_response
    rw [if_pos (show ([] : List (ResultRow α)).isEmpty = true from rfl), hty]
    dsimp only
    unfold Db.get_all_facilities
    rw [hsort]
    simp [List.isEmpty_iff, hfac]
  · rw [List.length_map, List.length_take]
    exact min_le_left _ _
  · intro fi hfi
    obtain ⟨e, he, rfl⟩ := List.mem_map.mp hfi
    have he' : e ∈ Router.process_fallback_facilities resolve
        req.user_latitude req.user_longitude db.facilities :=
      (Router.sort_by_distance_perm hsort).subset ((List.take_sublist 5 _).subset he)
    exact (Router.process_fallback_inv hres he').2.2.1
  · exact Router.map_facility_pairwise_of_sorted hsort (List.take_sublist 5 _)
      (fun e he => (Router.process_fallback_inv hres he).1)

/-- C5 witness: on the five-facility fixture, a pure snake search with no
stock anywhere returns exactly 5 nearest facilities with empty stock
lists and the expected message. -/
theorem c5_witness :
    Router.ResolverTotal resolve_by_lat ∧
    Option.elim (Router.find_antivenom db_five 0 resolve_by_lat fmt_none (.ok ()) req_snake)
      False
      (fun r => r.facilities_found = 5 ∧ r.facilities.length = 5 ∧
        (∀ fi ∈ r.facilities, fi.antivenoms = []) ∧
        r.message = "No facilities with specific antivenom found. Showing 5 nearest facilities. Please contact them for alternative treatment options.") := by
  refine ⟨fun a b c d => ⟨rfl, rfl⟩, ?_⟩
  obtain ⟨sorted, hsort, hfind, hlen, hav, hsorted⟩ :=
    c5_identity_fallback_nearest db_five 0 resolve_by_lat fmt_none req_snake 100
      (fun a b c d => ⟨rfl, rfl⟩) rfl rfl rfl rfl (by decide)
  have hlen5 : sorted.length = 5 := by
    rw [(Router.sort_by_distance_perm hsort).length_eq]
    rfl
  have hcount : ((sorted.take 5).map (fun e => e.facility)).length = 5 := by
    rw [List.length_map, List.length_take, hlen5]
    simp
  rw [hfind]
  refine ⟨hcount, hcount, hav, ?_⟩
  rw [hcount]
  rfl

/-- C10: the coordinate-presence check treats a coordinate that is
exactly 0 like a null one, and consequently every facility appearing in
any response of either endpoint — including the degraded fallback path —
has coordinates that are present and non-zero; a facility with a zero
latitude or longitude can never appear in any response. -/
theorem c10_zero_coordinates_excluded {α : Type} [LinearOrder α] [Zero α] [DecidableEq α] :
    (∀ (v : Option α), Router.has_coordinates (α := α) (some 0) v = false ∧
      Router.has_coordinates v (some 0) = false ∧
      Router.has_coordinates none v = false ∧ Router.has_coordinates v none = false) ∧
    (∀ (db : DB α) (today : Int) (resolve : α → α → α → α → Router.RouteResult α)
      (fmt : α → String) (allF : Except Unit Unit)
      (req : Router.AntivenomFinderRequest α) (resp : Router.FinderResponse α),
      Router.find_antivenom db today resolve fmt allF req = some resp →
      ∀ fi ∈ resp.facilities, Router.has_coordinates fi.latitude fi.longitude = true) ∧
    (∀ (db : DB α) (today : Int) (resolve : α → α → α → α → Router.RouteResult α)
      (fmt : α → String) (req : Router.FacilityListRequest α)
      (resp : Router.FinderResponse α),
      Router.get_facilities_with_antivenom db today resolve fmt req = some resp →
      ∀ fi ∈ resp.facilities, Router.has_coordinates fi.latitude fi.longitude = true) := by
  refine ⟨?_, ?_, ?_⟩
  · intro v
    refine ⟨?_, ?_, ?_, ?_⟩
    · simp [Router.has_coordinates, truthy_num]
    · simp [Router.has_coordinates, truthy_num]
    · simp [Router.has_coordinates, truthy_num]
    · simp [Router.has_coordinates, truthy_num]
  · intro db today resolve fmt allF req resp h fi hfi
    obtain ⟨radius, rows, hmax, hrows, hbuild⟩ := Router.find_antivenom_some_elim h
    obtain ⟨-, hshape⟩ := Router.finder_build_response_cases hbuild
    rcases hshape with hnil | ⟨sorted, hsort, heq, hr0⟩ | ⟨sorted, hsort, heq⟩
    · rw [hnil] at hfi
      cases hfi
    · rw [heq] at hfi
      obtain ⟨e, he, rfl⟩ := List.mem_map.mp hfi
      have he' : e ∈ Router.process_fallback_facilities resolve
          req.user_latitude req.user_longitude db.facilities :=
        (Router.sort_by_distance_perm hsort).subset ((List.take_sublist 5 _).subset he)
      obtain ⟨f, hf, hc, rfl⟩ := Router.mem_process_fallback_facilities he'
      simpa [Router.mk_fallback_facility_info] using hc
    · rw [heq] at hfi
      obtain ⟨e, he, rfl⟩ := List.mem_map.mp hfi
      have he' : e ∈ Router.process_facilities resolve
          req.user_latitude req.user_longitude req.max_distance_km rows :=
        (Router.sort_by_distance_perm hsort).subset he
      obtain ⟨r, hr, hc, hd, rfl⟩ := Router.mem_process_facilities he'
      simpa [Router.mk_facility_info] using hc
  · intro db today resolve fmt req resp h fi hfi
    obtain ⟨radius, hmax, hbuild⟩ := Router.get_facilities_some_elim h
    obtain ⟨-, hshape⟩ := Router.list_build_response_cases hbuild
    rcases hshape with hnil | ⟨sorted, hsort, heq⟩
    · rw [hnil] at hfi
      cases hfi
    · rw [heq] at hfi
      obtain ⟨e, he, rfl⟩ := List.mem_map.mp hfi
      have he' : e ∈ Router.process_facility_groups resolve
          req.user_latitude req.user_longitude req.max_distance_km
          (Router.group_by_facility (Router.list_primary_rows db today req)) :=
        (Router.sort_by_distance_perm hsort).subset he
      obtain ⟨g, hg, hc, hd, rfl⟩ := Router.mem_process_facility_groups he'
      simpa [Router.mk_facility_info] using hc

/-- C10 witness: in the fixture with an equator facility, the fallback
response shows only the facility with non-zero coordinates. -/
theorem c10_witness :
    (Router.find_antivenom db_zero_lat 0 resolve_by_lat fmt_none (.ok ()) req_snake).map
      (fun r => (r.facilities_found,
        r.facilities.all (fun fi => Router.has_coordinates fi.latitude fi.longitude),
        r.facilities.map (fun fi => fi.facility_id))) = some (1, true, [2]) ∧
    Option.elim (Router.find_antivenom db_zero_lat 0 resolve_by_lat fmt_none (.ok ()) req_snake)
      False
      (fun r => ∀ fi ∈ r.facilities,
        Router.has_coordinates fi.latitude fi.longitude = true) := by
  refine ⟨by decide, ?_⟩
  cases hr : Router.find_antivenom db_zero_lat 0 resolve_by_lat fmt_none (.ok ()) req_snake with
  | none => exact absurd hr (by decide)
  | some r =>
      exact (c10_zero_coordinates_excluded (α := ℚ)).2.1 db_zero_lat 0 resolve_by_lat
        fmt_none (.ok ()) req_snake r hr

/-- C1: for every response either endpoint returns (under the resolver's
always-succeeds contract), `facilities_found` equals the length of the
facility list, every listed facility carries a resolved distance, and the
list is non-decreasing in that distance; moreover the distance sort both
endpoints use is stable, preserving the pre-sort order within every class
of tied sort keys. -/
theorem c1_count_sorted_and_stable {α : Type} [LinearOrder α] [Zero α] [DecidableEq α] :
    (∀ (db : DB α) (today : Int) (resolve : α → α → α → α → Router.RouteResult α)
      (fmt : α → String) (allF : Except Unit Unit)
      (req : Router.AntivenomFinderRequest α) (resp : Router.FinderResponse α),
      Router.ResolverTotal resolve →
      Router.find_antivenom db today resolve fmt allF req = some resp →
      resp.facilities_found = resp.facilities.length ∧
      (∀ fi ∈ resp.facilities, (Router.resolved_distance fi).isSome = true) ∧
      resp.facilities.Pairwise (fun x y => (Router.resolved_distance x).getD 0 ≤
        (Router.resolved_distance y).getD 0)) ∧
    (∀ (db : DB α) (today : Int) (resolve : α → α → α → α → Router.RouteResult α)
      (fmt : α → String) (req : Router.FacilityListRequest α)
      (resp : Router.FinderResponse α),
      Router.ResolverTotal resolve →
      Router.get_facilities_with_antivenom db today resolve fmt req = some resp →
      resp.facilities_found = resp.facilities.length ∧
      (∀ fi ∈ resp.facilities, (Router.resolved_distance fi).isSome = true) ∧
      resp.facilities.Pairwise (fun x y => (Router.resolved_distance x).getD 0 ≤
        (Router.resolved_distance y).getD 0)) ∧
    (∀ (l s : List (Router.FacilityWithDistance α)),
      Router.sort_by_distance l = some s → ∀ v : α,
      s.filter (fun e => decide (e.distance_km.getD 0 = v)) =
        l.filter (fun e => decide (e.distance_km.getD 0 = v))) := by
  refine ⟨?_, ?_, fun l s h v => Router.sort_by_distance_stable h v⟩
  · intro db today resolve fmt allF req resp hres h
    obtain ⟨radius, rows, hmax, hrows, hbuild⟩ := Router.find_antivenom_some_elim h
    obtain ⟨⟨hsucc, hfound⟩, hshape⟩ := Router.finder_build_response_cases hbuild
    refine ⟨hfound, ?_⟩
    rcases hshape with hnil | ⟨sorted, hsort, heq, hr0⟩ | ⟨sorted, hsort, heq⟩
    · rw [hnil]
      exact ⟨fun fi hfi => absurd hfi (List.not_mem_nil fi), List.Pairwise.nil⟩
    · rw [heq]
      constructor
      · intro fi hfi
        obtain ⟨e, he, rfl⟩ := List.mem_map.mp hfi
        have he' : e ∈ Router.process_fallback_facilities resolve
            req.user_latitude req.user_longitude db.facilities :=
          (Router.sort_by_distance_perm hsort).subset ((List.take_sublist 5 _).subset he)
        have hi := Router.process_fallback_inv hres he'
        rw [hi.1]
        exact hi.2.1
      · exact Router.map_facility_pairwise_of_sorted hsort (List.take_sublist 5 _)
          (fun e he => (Router.process_fallback_inv hres he).1)
    · rw [heq]
      constructor
      · intro fi hfi
        obtain ⟨e, he, rfl⟩ := List.mem_map.mp hfi
        have he' : e ∈ Router.process_facilities resolve
            req.user_latitude req.user_longitude req.max_distance_km rows :=
          (Router.sort_by_distance_perm hsort).subset he
        have hi := Router.process_facilities_inv hres he'
        rw [hi.1]
        exact hi.2.1
      · exact Router.map_facility_pairwise_of_sorted hsort (List.Sublist.refl sorted)
          (fun e he => (Router.process_facilities_inv hres he).1)
  · intro db today resolve fmt req resp hres h
    obtain ⟨radius, hmax, hbuild⟩ := Router.get_facilities_some_elim h
    obtain ⟨⟨hsucc, hfound⟩, hshape⟩ := Router.list_build_response_cases hbuild
    refine ⟨hfound, ?_⟩
    rcases hshape with hnil | ⟨sorted, hsort, heq⟩
    · rw [hnil]
      exact ⟨fun fi hfi => absurd hfi (List.not_mem_nil fi), List.Pairwise.nil⟩
    · rw [heq]
      constructor
      · intro fi hfi
        obtain ⟨e, he, rfl⟩ := List.mem_map.mp hfi
        have he' : e ∈ Router.process_facility_groups resolve
            req.user_latitude req.user_longitude req.max_distance_km
            (Router.group_by_facility (Router.list_primary_rows db today req)) :=
          (Router.sort_by_distance_perm hsort).subset he
        have hi := Router.process_facility_groups_inv hres he'
        rw [hi.1]
        exact hi.2.1
      · exact Router.map_facility_pairwise_of_sorted hsort (List.Sublist.refl sorted)
          (fun e he => (Router.process_facility_groups_inv hres he).1)

/-- C1 witness: a concrete two-facility search returns a count matching
the list, sorted nearest-first (facility 11 at distance 2 before
facility 10 at distance 7). -/
theorem c1_witness :
    Router.ResolverTotal resolve_by_lat ∧
    (Router.find_antivenom db_stock 0 resolve_by_lat fmt_none (.ok ()) req_snake).map
      (fun r => (r.facilities_found, r.facilities.map (fun fi => fi.facility_id))) =
      some (2, [11, 10]) ∧
    Option.elim (Router.find_antivenom db_stock 0 resolve_by_lat fmt_none (.ok ()) req_snake)
      False
      (fun r => r.facilities_found = r.facilities.length ∧
        r.facilities.Pairwise (fun x y => (Router.resolved_distance x).getD 0 ≤
          (Router.resolved_distance y).getD 0)) := by
  refine ⟨fun a b c d => ⟨rfl, rfl⟩, by decide, ?_⟩
  cases hr : Router.find_antivenom db_stock 0 resolve_by_lat fmt_none (.ok ()) req_snake with
  | none => exact absurd hr (by decide)
  | some r =>
      have h := (c1_count_sorted_and_stable (α := ℚ)).1 db_stock 0 resolve_by_lat
        fmt_none (.ok ()) req_snake r (fun a b c d => ⟨rfl, rfl⟩) hr
      exact ⟨h.1, h.2.2⟩

/-- C9: under a positive `max_distance_km`, every facility either
non-fallback pipeline keeps has a resolved distance no greater than the
maximum (facilities beyond it are dropped), and when every candidate's
resolved distance exceeds the maximum, both endpoints answer with zero
facilities found and the non-fallback "No facilities found within
specified distance" message. -/
theorem c9_max_distance_filter {α : Type} [LinearOrder α] [Zero α] [DecidableEq α] :
    (∀ (db : DB α) (today : Int) (resolve : α → α → α → α → Router.RouteResult α)
      (fmt : α → String) (allF : Except Unit Unit)
      (req : Router.AntivenomFinderRequest α) (resp : Router.FinderResponse α)
      (rows : List (ResultRow α)) (m : α),
      Router.ResolverTotal resolve →
      req.max_distance_km = some m → 0 < m →
      Router.finder_primary_rows db today req = some rows → rows ≠ [] →
      Router.find_antivenom db today resolve fmt allF req = some resp →
      ∀ fi ∈ resp.facilities, ∃ d, Router.resolved_distance fi = some d ∧ d ≤ m) ∧
    (∀ (db : DB α) (today : Int) (resolve : α → α → α → α → Router.RouteResult α)
      (fmt : α → String) (req : Router.FacilityListRequest α)
      (resp : Router.FinderResponse α) (m : α),
      Router.ResolverTotal resolve →
      req.max_distance_km = some m → 0 < m →
      Router.get_facilities_with_antivenom db today resolve fmt req = some resp →
      ∀ fi ∈ resp.facilities, ∃ d, Router.resolved_distance fi = some d ∧ d ≤ m) ∧
    (∀ (db : DB α) (today : Int) (resolve : α → α → α → α → Router.RouteResult α)
      (fmt : α → String) (allF : Except Unit Unit)
      (req : Router.AntivenomFinderRequest α) (rows : List (ResultRow α)) (m : α),
      Router.ResolverTotal resolve →
      req.max_distance_km = some m → 0 < m →
      Router.finder_primary_rows db today req = some rows → rows ≠ [] →
      (∀ r ∈ rows, Router.has_coordinates r.latitude r.longitude = true →
        ∀ d, (resolve req.user_latitude req.user_longitude
          (r.latitude.getD 0) (r.longitude.getD 0)).distance_km = some d → m < d) →
      Router.find_antivenom db today resolve fmt allF req =
        some { success := true
               message := "No facilities found within specified distance"
               facilities_found := 0
               facilities := []
               search_radius_km := m }) ∧
    (∀ (db : DB α) (today : Int) (resolve : α → α → α → α → Router.RouteResult α)
      (fmt : α → String) (req : Router.FacilityListRequest α) (m : α),
      Router.ResolverTotal resolve →
      req.max_distance_km = some m → 0 < m →
      Router.list_primary_rows db today req ≠ [] →
      (∀ g ∈ Router.group_by_facility (Router.list_primary_rows db today req),
        Router.has_coordinates g.2.1.latitude g.2.1.longitude = true →
        ∀ d, (resolve req.user_latitude req.user_longitude
          (g.2.1.latitude.getD 0) (g.2.1.longitude.getD 0)).distance_km = some d → m < d) →
      Router.get_facilities_with_antivenom db today resolve fmt req =
        some { success := true
               message := "No facilities found within specified distance"
               facilities_found := 0
               facilities := []
               search_radius_km := m }) := by
  refine ⟨?_, ?_, ?_, ?_⟩
  · intro db today resolve fmt allF req resp rows m hres hmax hm hrows hne h fi hfi
    obtain ⟨radius, rows', hmax', hrows', hbuild⟩ := Router.find_antivenom_some_elim h
    rw [show rows' = rows from Option.some.inj (hrows'.symm.trans hrows)] at hbuild
    obtain ⟨-, hshape⟩ := Router.finder_build_response_cases hbuild
    rcases hshape with hnil | ⟨sorted, hsort, heq, hr0⟩ | ⟨sorted, hsort, heq⟩
    · rw [hnil] at hfi
      cases hfi
    · exact absurd hr0 hne
    · rw [heq] at hfi
      obtain ⟨e, he, rfl⟩ := List.mem_map.mp hfi
      have he' : e ∈ Router.process_facilities resolve
          req.user_latitude req.user_longitude req.max_distance_km rows :=
        (Router.sort_by_distance_perm hsort).subset he
      obtain ⟨r, hr, hc, hd, rfl⟩ := Router.mem_process_facilities he'
      obtain ⟨d, hdist⟩ := Option.isSome_iff_exists.mp (hres req.user_latitude
        req.user_longitude (r.latitude.getD 0) (r.longitude.getD 0)).2
      rw [hmax, hdist] at hd
      refine ⟨d, ?_, Router.le_of_not_beyond hm hd⟩
      rw [Router.entry_resolved_distance hres _, hdist]
  · intro db today resolve fmt req resp m hres hmax hm h fi hfi
    obtain ⟨radius, hmax', hbuild⟩ := Router.get_facilities_some_elim h
    obtain ⟨-, hshape⟩ := Router.list_build_response_cases hbuild
    rcases hshape with hnil | ⟨sorted, hsort, heq⟩
    · rw [hnil] at hfi
      cases hfi
    · rw [heq] at hfi
      obtain ⟨e, he, rfl⟩ := List.mem_map.mp hfi
      have he' : e ∈ Router.process_facility_groups resolve
          req.user_latitude req.user_longitude req.max_distance_km
          (Router.group_by_facility (Router.list_primary_rows db today req)) :=
        (Router.sort_by_distance_perm hsort).subset he
      obtain ⟨g, hg, hc, hd, rfl⟩ := Router.mem_process_facility_groups he'
      obtain ⟨d, hdist⟩ := Option.isSome_iff_exists.mp (hres req.user_latitude
        req.user_longitude (g.2.1.latitude.getD 0) (g.2.1.longitude.getD 0)).2
      rw [hmax, hdist] at hd
      refine ⟨d, ?_, Router.le_of_not_beyond hm hd⟩
      rw [Router.entry_resolved_distance hres _, hdist]
  · intro db today resolve fmt allF req rows m hres hmax hm hrows hne hfar
    have hval := Router.validation_pass_of_rows_ne hrows hne
    have hentries : Router.process_facilities resolve req.user_latitude req.user_longitude
        req.max_distance_km rows = [] := by
      apply List.filterMap_eq_nil_iff.mpr
      intro r hr
      by_cases hc : Router.has_coordinates r.latitude r.longitude = true
      · obtain ⟨d, hdist⟩ := Option.isSome_iff_exists.mp (hres req.user_latitude
          req.user_longitude (r.latitude.getD 0) (r.longitude.getD 0)).2
        have hlt := hfar r hr hc d hdist
        have hbey : Router.beyond_max_distance req.max_distance_km
            (resolve req.user_latitude req.user_longitude
              (r.latitude.getD 0) (r.longitude.getD 0)).distance_km = true := by
          rw [hmax, hdist]
          unfold Router.beyond_max_distance
          simp [truthy_num, ne_of_gt hm, ne_of_gt (lt_trans hm hlt), hlt]
        simp [hc, hbey]
      · simp [eq_false_of_ne_true hc]
    rw [Router.find_antivenom_eq_build hval hmax hrows]
    unfold Router.finder_build_response
    rw [if_neg (by simp [List.isEmpty_iff, hne])]
    dsimp only
    rw [hentries]
    rfl
  · intro db today resolve fmt req m hres hmax hm hne hfar
    have hval := Router.list_validation_pass_of_rows_ne hne
    have hentries : Router.process_facility_groups resolve req.user_latitude
        req.user_longitude req.max_distance_km
        (Router.group_by_facility (Router.list_primary_rows db today req)) = [] := by
      apply List.filterMap_eq_nil_iff.mpr
      intro g hg
      by_cases hc : Router.has_coordinates g.2.1.latitude g.2.1.longitude = true
      · obtain ⟨d, hdist⟩ := Option.isSome_iff_exists.mp (hres req.user_latitude
          req.user_longitude (g.2.1.latitude.getD 0) (g.2.1.longitude.getD 0)).2
        have hlt := hfar g hg hc d hdist
        have hbey : Router.beyond_max_distance req.max_distance_km
            (resolve req.user_latitude req.user_longitude
              (g.2.1.latitude.getD 0) (g.2.1.longitude.getD 0)).distance_km = true := by
          rw [hmax, hdist]
          unfold Router.beyond_max_distance
          simp [truthy_num, ne_of_gt hm, ne_of_gt (lt_trans hm hlt), hlt]
        simp [hc, hbey]
      · simp [eq_false_of_ne_true hc]
    rw [Router.get_facilities_eq_build hval hmax]
    unfold Router.list_build_response
    rw [if_neg (by simp [List.isEmpty_iff, hne])]
    dsimp only
    rw [hentries]
    rfl

/-- The primary rows of the two-facility stock fixture. -/
def rows_stock : List (ResultRow ℚ) :=
  Db.get_facilities_with_antivenom db_stock 0 1

/-- A snake request with a 1 km radius (both fixture facilities are
farther). -/
def req_far : Router.AntivenomFinderRequest ℚ :=
  { snake_common_name := none, snake_id := some 1, antivenom_type := none,
    user_latitude := 1, user_longitude := 1, max_distance_km := some 1 }

/-- C9 witness: with radius 1 and both facilities at resolved distances 7
and 2, the finder answers zero found with the non-fallback message. -/
theorem c9_witness :
    Router.ResolverTotal resolve_by_lat ∧ (0 : ℚ) < 1 ∧ rows_stock ≠ [] ∧
    Router.find_antivenom db_stock 0 resolve_by_lat fmt_none (.ok ()) req_far =
      some { success := true
             message := "No facilities found within specified distance"
             facilities_found := 0
             facilities := []
             search_radius_km := 1 } := by
  refine ⟨fun a b c d => ⟨rfl, rfl⟩, by decide, by decide, ?_⟩
  have hlat : ∀ r ∈ rows_stock, Router.has_coordinates r.latitude r.longitude = true →
      (1 : ℚ) < r.latitude.getD 0 := by decide
  exact (c9_max_distance_filter (α := ℚ)).2.2.1 db_stock 0 resolve_by_lat fmt_none
    (.ok ()) req_far rows_stock 1 (fun a b c d => ⟨rfl, rfl⟩) rfl (by decide) rfl
    (by decide)
    (fun r hr hc d hd => by
      have h := Option.some.inj hd
      rw [← h]
      exact hlat r hr hc)

/-- One facility with two stock records of the target antivenom. -/
def db_dup : DB ℚ :=
  { snakes := [],
    antivenom_types := [],
    antivenoms := [{ antivenom_id := 3, product_name := "AV", manufacturer := none,
                     type_id := 1 }],
    antivenom_snake_targets := [{ antivenom_id := 3, snake_id := 1 }],
    facility_antivenom_stock :=
      [{ stock_id := 1, facility_id := 7, antivenom_id := 3, quantity := 4,
         expiration_date := none, batch_no := none },
       { stock_id := 2, facility_id := 7, antivenom_id := 3, quantity := 2,
         expiration_date := none, batch_no := none }],
    facilities := [mk_fac 7 "A" (some 5) (some 6)] }

/-- C2 counterexample: `find_antivenom` does not partition by facility —
one facility with two stock records appears twice in the response (so
"each facility appears at most once" fails) and the route resolver is
invoked once per stock record (twice for a single facility). -/
theorem c2_counterexample :
    (Router.find_antivenom db_dup 0 resolve_by_lat fmt_none (.ok ()) req_snake).map
      (fun r => r.facilities.map (fun fi => fi.facility_id)) = some [7, 7] ∧
    ¬ ([7, 7] : List Nat).Nodup ∧
    Router.finder_resolver_calls (Db.get_facilities_with_antivenom db_dup 0 1) = 2 ∧
    (((Db.get_facilities_with_antivenom db_dup 0 1).map
      (fun r => r.facility_id)).dedup).length = 1 := by
  exact ⟨by decide, by decide, by decide, by decide⟩

/-- C2 (amended): the grouping behaviour the claim describes holds only
in the facilities endpoint: its dict partitions rows by facility id in
first-seen order, each facility key occurring once, carrying the
first-seen row and the full aggregated antivenom list of that facility,
so each facility appears at most once in the response and the resolver
runs at most once per distinct facility.  `find_antivenom`, by contrast,
builds one candidate per stock record: every response facility of a
non-empty primary search carries a singleton antivenom list and the
resolver runs once per surviving stock record. -/
theorem c2_grouping_facilities_endpoint_only {α : Type} [LinearOrder α] [Zero α]
    [DecidableEq α] :
    (∀ rows : List (ResultRow α),
      (Router.group_by_facility rows).map (fun g => g.1) =
        Router.dedup_first_seen (rows.map (fun r => r.facility_id)) ∧
      ((Router.group_by_facility rows).map (fun g => g.1)).Nodup) ∧
    (∀ (rows : List (ResultRow α)) (g : Router.FacilityGroup α),
      g ∈ Router.group_by_facility rows →
      rows.find? (fun r => r.facility_id == g.1) = some g.2.1 ∧
      g.2.2 = (rows.filter (fun r => r.facility_id == g.1)).map
        Router.mk_antivenom_info_grouped) ∧
    (∀ (db : DB α) (today : Int) (resolve : α → α → α → α → Router.RouteResult α)
      (fmt : α → String) (req : Router.FacilityListRequest α)
      (resp : Router.FinderResponse α),
      Router.get_facilities_with_antivenom db today resolve fmt req = some resp →
      (resp.facilities.map (fun fi => fi.facility_id)).Nodup) ∧
    (∀ rows : List (ResultRow α),
      Router.grouped_resolver_calls rows ≤
        (Router.dedup_first_seen (rows.map (fun r => r.facility_id))).length) ∧
    (∀ rows : List (ResultRow α),
      Router.finder_resolver_calls rows =
        (rows.filter (fun r => Router.has_coordinates r.latitude r.longitude)).length) ∧
    (∀ (db : DB α) (today : Int) (resolve : α → α → α → α → Router.RouteResult α)
      (fmt : α → String) (allF : Except Unit Unit)
      (req : Router.AntivenomFinderRequest α) (resp : Router.FinderResponse α)
      (rows : List (ResultRow α)),
      Router.finder_primary_rows db today req = some rows → rows ≠ [] →
      Router.find_antivenom db today resolve fmt allF req = some resp →
      ∀ fi ∈ resp.facilities, fi.antivenoms.length = 1) := by
  refine ⟨?_, ?_, ?_, ?_, fun rows => rfl, ?_⟩
  · intro rows
    exact ⟨Router.group_by_facility_keys rows, Router.group_by_facility_keys_nodup rows⟩
  · intro rows g hg
    have h := Router.mem_group_by_facility hg
    exact ⟨h.1, h.2.1⟩
  · intro db today resolve fmt req resp h
    obtain ⟨radius, hmax, hbuild⟩ := Router.get_facilities_some_elim h
    obtain ⟨-, hshape⟩ := Router.list_build_response_cases hbuild
    rcases hshape with hnil | ⟨sorted, hsort, heq⟩
    · rw [hnil]
      exact List.nodup_nil
    · rw [heq, List.map_map]
      have hperm : (sorted.map (fun e => e.facility.facility_id)).Perm
          ((Router.process_facility_groups resolve req.user_latitude req.user_longitude
            req.max_distance_km (Router.group_by_facility
              (Router.list_primary_rows db today req))).map
            (fun e => e.facility.facility_id)) :=
        (Router.sort_by_distance_perm hsort).map _
      have hsub : ((Router.process_facility_groups resolve req.user_latitude
          req.user_longitude req.max_distance_km (Router.group_by_facility
            (Router.list_primary_rows db today req))).map
          (fun e => e.facility.facility_id)).Sublist
          ((Router.group_by_facility (Router.list_primary_rows db today req)).map
            (fun g => g.1)) := by
        apply Router.map_filterMap_sublist_keys
        intro g hg e he
        have hid := (Router.mem_group_by_facility hg).2.2
        by_cases hc : Router.has_coordinates g.2.1.latitude g.2.1.longitude
        · by_cases hbey : Router.beyond_max_distance req.max_distance_km
              (resolve req.user_latitude req.user_longitude
                (g.2.1.latitude.getD 0) (g.2.1.longitude.getD 0)).distance_km
          · simp [hc, hbey] at he
          · simp only [hc, Bool.not_true, Bool.false_eq_true, if_false, hbey,
              Option.some.injEq] at he
            rw [← he]
            exact hid
        · simp [hc] at he
      have hnodup := hsub.nodup (Router.group_by_facility_keys_nodup _)
      exact (hperm.symm).nodup hnodup
  · intro rows
    calc Router.grouped_resolver_calls rows
        ≤ (Router.group_by_facility rows).length := List.length_filter_le _ _
      _ = ((Router.group_by_facility rows).map (fun g => g.1)).length :=
          (List.length_map _ _).symm
      _ = (Router.dedup_first_seen (rows.map (fun r => r.facility_id))).length := by
          rw [Router.group_by_facility_keys]
  · intro db today resolve fmt allF req resp rows hrows hne h fi hfi
    obtain ⟨radius, rows', hmax', hrows', hbuild⟩ := Router.find_antivenom_some_elim h
    rw [show rows' = rows from Option.some.inj (hrows'.symm.trans hrows)] at hbuild
    obtain ⟨-, hshape⟩ := Router.finder_build_response_cases hbuild
    rcases hshape with hnil | ⟨sorted, hsort, heq, hr0⟩ | ⟨sorted, hsort, heq⟩
    · rw [hnil] at hfi
      cases hfi
    · exact absurd hr0 hne
    · rw [heq] at hfi
      obtain ⟨e, he, rfl⟩ := List.mem_map.mp hfi
      have he' : e ∈ Router.process_facilities resolve
          req.user_latitude req.user_longitude req.max_distance_km rows :=
        (Router.sort_by_distance_perm hsort).subset he
      obtain ⟨r, hr, hc, hd, rfl⟩ := Router.mem_process_facilities he'
      rfl

/-- C2 witness: on the duplicate-stock fixture the facilities endpoint
groups: one facility in the response, carrying both stock records. -/
theorem c2_witness :
    (Router.get_facilities_with_antivenom db_dup 0 resolve_by_lat fmt_none
      { antivenom_name := none, snake_id := some 1,
        user_latitude := 1, user_longitude := 1, max_distance_km := some 100 }).map
      (fun r => (r.facilities_found,
        r.facilities.map (fun fi => (fi.facility_id, fi.antivenoms.length)))) =
      some (1, [(7, 2)]) ∧
    Option.elim (Router.get_facilities_with_antivenom db_dup 0 resolve_by_lat fmt_none
      { antivenom_name := none, snake_id := some 1,
        user_latitude := 1, user_longitude := 1, max_distance_km := some 100 })
      False (fun r => (r.facilities.map (fun fi => fi.facility_id)).Nodup) := by
  refine ⟨by decide, ?_⟩
  cases hr : Router.get_facilities_with_antivenom db_dup 0 resolve_by_lat fmt_none
      { antivenom_name := none, snake_id := some 1,
        user_latitude := 1, user_longitude := 1, max_distance_km := some 100 } with
  | none => exact absurd hr (by decide)
  | some r =>
      exact (c2_grouping_facilities_endpoint_only (α := ℚ)).2.2.1 db_dup 0
        resolve_by_lat fmt_none _ r hr

/-- One zero-quantity (unexpired) stock record of the target antivenom. -/
def db_zero_qty : DB ℚ :=
  { snakes := [],
    antivenom_types := [],
    antivenoms := [{ antivenom_id := 3, product_name := "AV", manufacturer := none,
                     type_id := 1 }],
    antivenom_snake_targets := [{ antivenom_id := 3, snake_id := 1 }],
    facility_antivenom_stock :=
      [{ stock_id := 1, facility_id := 7, antivenom_id := 3, quantity := 0,
         expiration_date := none, batch_no := none }],
    facilities := [mk_fac 7 "A" (some 5) (some 6)] }

/-- C3: the snake-identity search uses a `quantity >= 0` filter (a
"temporarily … for testing" hack in the source), so a zero-quantity stock
record flows through the repository row and all the way into the
response's antivenom list; the by-type and by-name searches do filter to
strictly positive quantities. -/
theorem c3_zero_quantity_reaches_response :
    (Db.get_facilities_with_antivenom db_zero_qty 0 1).map
      (fun r => (r.facility_id, r.quantity)) = [(7, 0)] ∧
    (Router.find_antivenom db_zero_qty 0 resolve_by_lat fmt_none (.ok ()) req_snake).map
      (fun r => r.facilities.map (fun fi => fi.antivenoms.map (fun a => a.quantity))) =
      some [[0]] ∧
    (∀ (db : DB ℚ) (today : Int) (ty : String),
      ∀ r ∈ Db.get_facilities_by_antivenom_type db today ty, 0 < r.quantity) ∧
    (∀ (db : DB ℚ) (today : Int) (name : String),
      ∀ r ∈ Db.get_facilities_with_antivenom_by_name db today name, 0 < r.quantity) := by
  refine ⟨by decide, by decide, ?_, ?_⟩
  · intro db today ty r hr
    unfold Db.get_facilities_by_antivenom_type at hr
    split at hr
    · exact absurd hr (List.not_mem_nil r)
    · dsimp only at hr
      split at hr
      · exact absurd hr (List.not_mem_nil r)
      · split at hr
        · exact absurd hr (List.not_mem_nil r)
        · obtain ⟨s, hs, f, a, hlf, hla, hexp, rfl⟩ := Db.mem_process_stock_rows.mp hr
          have hq := (List.mem_filter.mp hs).2
          simp only [Bool.and_eq_true, decide_eq_true_eq] at hq
          exact hq.2
  · intro db today name r hr
    unfold Db.get_facilities_with_antivenom_by_name at hr
    have hr' := (List.mem_insertionSort _).mp hr
    have hr'' := List.mem_dedup.mp hr'
    obtain ⟨s, hs, hf⟩ := List.mem_filterMap.mp hr''
    split at hf
    · rename_i f a hlf hla
      dsimp only at hf
      split at hf
      · rename_i hcond
        simp only [Bool.and_eq_true, decide_eq_true_eq] at hcond
        have := Option.some.inj hf
        rw [← this]
        exact hcond.1.1.2
      · exact absurd hf (by simp)
    · exact absurd hf (by simp)

/-- C8: both the by-snake and by-type repository queries exclude every
stock record whose expiration date is on or before today regardless of
its quantity; the expiration check never excludes a record with no
expiration date, and a date-free record meeting the other conditions of
the by-snake query does appear in its output. -/
theorem c8_expiration_rule {α : Type} [LinearOrder α] [Zero α] [DecidableEq α] :
    (∀ (db : DB α) (today : Int) (sid : Nat),
      ∀ r ∈ Db.get_facilities_with_antivenom db today sid,
        ∀ d, r.expiration_date = some d → today < d) ∧
    (∀ (db : DB α) (today : Int) (ty : String),
      ∀ r ∈ Db.get_facilities_by_antivenom_type db today ty,
        ∀ d, r.expiration_date = some d → today < d) ∧
    (∀ today : Int, Db.stock_expired today none = false) ∧
    (∀ (db : DB α) (today : Int) (sid : Nat) (s : StockRecord)
      (f : FacilityRow α) (a : AntivenomRow),
      s ∈ db.facility_antivenom_stock →
      s.expiration_date = none →
      (((db.antivenom_snake_targets.filter (fun t => t.snake_id == sid)).map
        (fun t => t.antivenom_id)).contains s.antivenom_id) = true →
      0 ≤ s.quantity →
      Db.lookup_facility db s.facility_id = some f →
      Db.lookup_antivenom db s.antivenom_id = some a →
      Db.mk_result_row f a s ∈ Db.get_facilities_with_antivenom db today sid) := by
  refine ⟨?_, ?_, fun today => rfl, ?_⟩
  · intro db today sid r hr d hd
    unfold Db.get_facilities_with_antivenom at hr
    dsimp only at hr
    split at hr
    · exact absurd hr (List.not_mem_nil r)
    · split at hr
      · exact absurd hr (List.not_mem_nil r)
      · obtain ⟨s, hs, f, a, hlf, hla, hexp, rfl⟩ := Db.mem_process_stock_rows.mp hr
        have hsd : s.expiration_date = some d := hd
        unfold Db.stock_expired at hexp
        rw [hsd] at hexp
        simp only [decide_eq_false_iff_not] at hexp
        exact not_le.mp hexp
  · intro db today ty r hr d hd
    unfold Db.get_facilities_by_antivenom_type at hr
    split at hr
    · exact absurd hr (List.not_mem_nil r)
    · dsimp only at hr
      split at hr
      · exact absurd hr (List.not_mem_nil r)
      · split at hr
        · exact absurd hr (List.not_mem_nil r)
        · obtain ⟨s, hs, f, a, hlf, hla, hexp, rfl⟩ := Db.mem_process_stock_rows.mp hr
          have hsd : s.expiration_date = some d := hd
          unfold Db.stock_expired at hexp
          rw [hsd] at hexp
          simp only [decide_eq_false_iff_not] at hexp
          exact not_le.mp hexp
  · intro db today sid s f a hs hnone hcont hqty hlf hla
    unfold Db.get_facilities_with_antivenom
    have hmem_ids : s.antivenom_id ∈ (db.antivenom_snake_targets.filter
        (fun t => t.snake_id == sid)).map (fun t => t.antivenom_id) := by
      simpa using hcont
    rw [if_neg (by simp only [List.isEmpty_iff]
                   exact List.ne_nil_of_mem hmem_ids)]
    dsimp only
    have hsf : s ∈ db.facility_antivenom_stock.filter
        (fun s => ((db.antivenom_snake_targets.filter (fun t => t.snake_id == sid)).map
          (fun t => t.antivenom_id)).contains s.antivenom_id && decide (0 ≤ s.quantity)) :=
      List.mem_filter.mpr ⟨hs, by rw [hcont]
                                  simp [hqty]⟩
    rw [if_neg (by simp only [List.isEmpty_iff]
                   exact List.ne_nil_of_mem hsf)]
    exact Db.mem_process_stock_rows.mpr ⟨s, hsf, f, a, hlf, hla,
      by simp [Db.stock_expired, hnone], rfl⟩

/-- A single expired stock record (expiring on day 0, with today = day
0) of the target antivenom. -/
def db_expired : DB ℚ :=
  { snakes := [],
    antivenom_types := [],
    antivenoms := [{ antivenom_id := 3, product_name := "AV", manufacturer := none,
                     type_id := 1 }],
    antivenom_snake_targets := [{ antivenom_id := 3, snake_id := 1 }],
    facility_antivenom_stock :=
      [{ stock_id := 1, facility_id := 10, antivenom_id := 3, quantity := 9,
         expiration_date := some 0, batch_no := none }],
    facilities := [mk_fac 10 "A" (some 7) (some 1)] }

/-- C8 witness: an expired record (high quantity) is excluded, while a
date-free record on the same fixture appears via the inclusion clause of
the rule. -/
theorem c8_witness :
    Db.get_facilities_with_antivenom db_expired 0 1 = [] ∧
    ({ stock_id := 1, facility_id := 10, antivenom_id := 3, quantity := 4,
       expiration_date := none, batch_no := none } : StockRecord) ∈
      db_stock.facility_antivenom_stock ∧
    Db.mk_result_row (mk_fac 10 "A" (some 7) (some 1))
      { antivenom_id := 3, product_name := "AV", manufacturer := none, type_id := 1 }
      { stock_id := 1, facility_id := 10, antivenom_id := 3, quantity := 4,
        expiration_date := none, batch_no := none } ∈
      Db.get_facilities_with_antivenom db_stock 0 1 := by
  refine ⟨by decide, by decide, ?_⟩
  exact (c8_expiration_rule (α := ℚ)).2.2.2 db_stock 0 1 _ _ _ (by decide) rfl
    (by decide) (by decide) rfl rfl

/-- A facility at latitude 2, longitude 3, over the real-valued
coordinate model. -/
noncomputable def fac_real : FacilityRow ℝ :=
  { facility_id := 7, facility_name := "A", facility_type := "hospital",
    region := "R", province := "P", city_municipality := "C", address := none,
    latitude := some 2, longitude := some 3, contact_number := none,
    facility_email := none, image_url := none }

/-- A snake-targeting antivenom stocked at that facility. -/
noncomputable def db_real : DB ℝ :=
  { snakes := [],
    antivenom_types := [],
    antivenoms := [{ antivenom_id := 3, product_name := "AV", manufacturer := none,
                     type_id := 1 }],
    antivenom_snake_targets := [{ antivenom_id := 3, snake_id := 1 }],
    facility_antivenom_stock :=
      [{ stock_id := 1, facility_id := 7, antivenom_id := 3, quantity := 4,
         expiration_date := none, batch_no := none }],
    facilities := [fac_real] }

/-- The single joined row the snake-id search returns on `db_real`. -/
noncomputable def row_real : ResultRow ℝ :=
  { facility_id := 7, facility_name := "A", facility_type := "hospital",
    region := "R", province := "P", city_municipality := "C", address := none,
    latitude := some 2, longitude := some 3, contact_number := none,
    facility_email := none, image_url := none,
    antivenom_id := 3, antivenom_name := "AV", manufacturer := none,
    quantity := 4, expiration_date := none, batch_no := none }

/-- A request searching by snake id from the facility's own location. -/
noncomputable def req_real : Router.AntivenomFinderRequest ℝ :=
  { snake_common_name := none, snake_id := some 1, antivenom_type := none,
    user_latitude := 2, user_longitude := 3, max_distance_km := some 30000 }

/-- A primary routing path that always times out. -/
def primary_timeout : ℝ → ℝ → ℝ → ℝ → Osrm.PrimaryOutcome :=
  fun _ _ _ _ => Osrm.PrimaryOutcome.timeout

/-- A trivial formatter over the real model. -/
def fmt_real : ℝ → String := fun _ => ""

theorem rows_real_eq :
    Router.finder_primary_rows db_real 0 req_real = some [row_real] := by
  with_unfolding_all rfl

/-- C4: the route resolver never fails: every call reports success with a
distance.  On any primary failure (timeout, non-2xx status, or any other
request error, including a malformed or no-route response) the result is
the fallback record: fallback flag set, note set, distance the haversine
great-circle distance over a spherical earth of radius 6371 km (exact in
meters, rounded to 2 places in kilometers), and duration in seconds equal
to that distance divided by 50 km/h.  Consequently a stocked facility
whose routing call timed out still appears in the finder's result set,
carrying that fallback route. -/
theorem c4_resolver_fallback_never_fails :
    (∀ (p : Osrm.PrimaryOutcome) (a b c d : ℝ),
      (Osrm.get_route_with_fallback p a b c d).success = true ∧
      (Osrm.get_route_with_fallback p a b c d).distance_km.isSome = true) ∧
    (∀ (p : Osrm.PrimaryOutcome) (a b c d : ℝ), p.isFailure = true →
      (Osrm.get_route_with_fallback p a b c d).success = true ∧
      (Osrm.get_route_with_fallback p a b c d).fallback = true ∧
      (Osrm.get_route_with_fallback p a b c d).note =
        some "Estimated based on straight-line distance (routing service unavailable)" ∧
      (Osrm.get_route_with_fallback p a b c d).distance_meters =
        some (Osrm.calculate_straight_line_distance a b c d * 1000) ∧
      (Osrm.get_route_with_fallback p a b c d).distance_km =
        some (Osrm.round2 (Osrm.calculate_straight_line_distance a b c d)) ∧
      (Osrm.get_route_with_fallback p a b c d).duration_seconds =
        some (Osrm.calculate_straight_line_distance a b c d / 50 * 3600)) ∧
    (∀ (primaryOf : ℝ → ℝ → ℝ → ℝ → Osrm.PrimaryOutcome) (db : DB ℝ) (today : Int)
      (fmt : ℝ → String) (allF : Except Unit Unit)
      (req : Router.AntivenomFinderRequest ℝ) (rows : List (ResultRow ℝ)) (m : ℝ)
      (q : ResultRow ℝ),
      req.max_distance_km = some m →
      Router.finder_primary_rows db today req = some rows →
      rows ≠ [] →
      q ∈ rows →
      Router.has_coordinates q.latitude q.longitude = true →
      primaryOf req.user_latitude req.user_longitude (q.latitude.getD 0)
        (q.longitude.getD 0) = Osrm.PrimaryOutcome.timeout →
      Router.beyond_max_distance req.max_distance_km
        (Osrm.get_route_with_fallback Osrm.PrimaryOutcome.timeout req.user_latitude
          req.user_longitude (q.latitude.getD 0) (q.longitude.getD 0)).distance_km
        = false →
      ∃ resp, Router.find_antivenom db today
          (fun a b c d => Osrm.get_route_with_fallback (primaryOf a b c d) a b c d)
          fmt allF req = some resp ∧
        ∃ fi ∈ resp.facilities, fi.facility_id = q.facility_id ∧
          fi.route_info = some (Osrm.get_route_with_fallback Osrm.PrimaryOutcome.timeout
            req.user_latitude req.user_longitude (q.latitude.getD 0)
            (q.longitude.getD 0)) ∧
          (Osrm.get_route_with_fallback Osrm.PrimaryOutcome.timeout req.user_latitude
            req.user_longitude (q.latitude.getD 0)
            (q.longitude.getD 0)).fallback = true) := by
  refine ⟨fun p a b c d => Osrm.get_route_with_fallback_total p a b c d, ?_, ?_⟩
  · intro p a b c d hp
    rw [Osrm.get_route_with_fallback_of_failure p hp a b c d]
    exact ⟨rfl, rfl, rfl, rfl, rfl, rfl⟩
  · intro primaryOf db today fmt allF req rows m q hmax hrows hne hq hc htime hbey
    have hres : Router.ResolverTotal (α := ℝ)
        (fun a b c d => Osrm.get_route_with_fallback (primaryOf a b c d) a b c d) :=
      fun a b c d => Osrm.get_route_with_fallback_total (primaryOf a b c d) a b c d
    have hval := Router.validation_pass_of_rows_ne hrows hne
    have hallsome : ∀ e ∈ Router.process_facilities
        (fun a b c d => Osrm.get_route_with_fallback (primaryOf a b c d) a b c d)
        req.user_latitude req.user_longitude req.max_distance_km rows,
        e.distance_km.isSome = true :=
      fun e he => (Router.process_facilities_inv hres he).2.1
    obtain ⟨resp, hresp, hfac⟩ := @Router.finder_build_response_main ℝ _ _ _ db today
      (fun a b c d => Osrm.get_route_with_fallback (primaryOf a b c d) a b c d)
      fmt allF req m rows _ hne (Router.sort_by_distance_of_all_some hallsome)
    refine ⟨resp, ?_, ?_⟩
    · rw [Router.find_antivenom_eq_build hval hmax hrows]
      exact hresp
    · have hd' : Router.beyond_max_distance req.max_distance_km
          ((fun a b c d => Osrm.get_route_with_fallback (primaryOf a b c d) a b c d)
            req.user_latitude req.user_longitude (q.latitude.getD 0)
            (q.longitude.getD 0)).distance_km = false := by
        show Router.beyond_max_distance req.max_distance_km
          (Osrm.get_route_with_fallback (primaryOf req.user_latitude req.user_longitude
            (q.latitude.getD 0) (q.longitude.getD 0)) req.user_latitude req.user_longitude
            (q.latitude.getD 0) (q.longitude.getD 0)).distance_km = false
        rw [htime]
        exact hbey
      have he := @Router.mem_process_facilities_intro ℝ _ _ _
        (fun a b c d => Osrm.get_route_with_fallback (primaryOf a b c d) a b c d)
        req.user_latitude req.user_longitude req.max_distance_km rows q hq hc hd'
      have hesorted := (Router.sort_by_distance_perm
        (Router.sort_by_distance_of_all_some hallsome)).mem_iff.mpr he
      refine ⟨Router.mk_facility_info q [Router.mk_antivenom_info q]
        (Osrm.get_route_with_fallback (primaryOf req.user_latitude req.user_longitude
          (q.latitude.getD 0) (q.longitude.getD 0)) req.user_latitude req.user_longitude
          (q.latitude.getD 0) (q.longitude.getD 0)), ?_, rfl, ?_, ?_⟩
      · rw [hfac]
        exact List.mem_map_of_mem _ hesorted
      · rw [htime]
        have hs := (Osrm.get_route_with_fallback_total Osrm.PrimaryOutcome.timeout
          req.user_latitude req.user_longitude (q.latitude.getD 0) (q.longitude.getD 0)).1
        simp [Router.mk_facility_info, hs]
      · rw [Osrm.get_route_with_fallback_of_failure Osrm.PrimaryOutcome.timeout rfl]

theorem c4_witness :
    Osrm.PrimaryOutcome.timeout.isFailure = true ∧
    (Osrm.get_route_with_fallback Osrm.PrimaryOutcome.timeout 0 0 0 0).success = true ∧
    (Osrm.get_route_with_fallback Osrm.PrimaryOutcome.timeout 0 0 0 0).fallback = true ∧
    ∃ resp, Router.find_antivenom db_real 0
        (fun a b c d => Osrm.get_route_with_fallback (primary_timeout a b c d) a b c d)
        fmt_real (Except.ok ()) req_real = some resp ∧
      ∃ fi ∈ resp.facilities, fi.facility_id = row_real.facility_id ∧
        fi.route_info = some (Osrm.get_route_with_fallback Osrm.PrimaryOutcome.timeout
          req_real.user_latitude req_real.user_longitude (row_real.latitude.getD 0)
          (row_real.longitude.getD 0)) ∧
        (Osrm.get_route_with_fallback Osrm.PrimaryOutcome.timeout req_real.user_latitude
          req_real.user_longitude (row_real.latitude.getD 0)
          (row_real.longitude.getD 0)).fallback = true := by
  refine ⟨rfl, ?_, ?_, ?_⟩
  · exact (c4_resolver_fallback_never_fails.1 Osrm.PrimaryOutcome.timeout 0 0 0 0).1
  · exact (c4_resolver_fallback_never_fails.2.1 Osrm.PrimaryOutcome.timeout 0 0 0 0 rfl).2.1
  · refine c4_resolver_fallback_never_fails.2.2 primary_timeout db_real 0 fmt_real
      (Except.ok ()) req_real [row_real] 30000 row_real rfl rows_real_eq
      (List.cons_ne_nil _ _) (List.mem_cons_self _ _) ?_ rfl ?_
    · norm_num [Router.has_coordinates, truthy_num, row_real]
    · rw [Osrm.get_route_with_fallback_of_failure Osrm.PrimaryOutcome.timeout rfl]
      have h0 : Osrm.calculate_straight_line_distance req_real.user_latitude
          req_real.user_longitude (row_real.latitude.getD 0)
          (row_real.longitude.getD 0) = 0 := by
        show Osrm.calculate_straight_line_distance 2 3 2 3 = 0
        exact Osrm.calculate_straight_line_distance_self 2 3
      rw [h0]
      have hr2 : Osrm.round2 0 = 0 := by simp [Osrm.round2]
      rw [hr2]
      simp [Router.beyond_max_distance, truthy_num, req_real]

end VenomX
